import Mathlib

/-!
# Force sensor plugin

A shallow embedding of `rotors_gazebo_plugins/src/gazebo_force_sensor_plugin.cpp`
(`GazeboForceSensorPlugin::Load` and `GazeboForceSensorPlugin::OnUpdate`) and
theorems about its delay queue, its noise step and its frame transforms.

Conventions of the embedding.

* The plugin object is the record `GazeboForceSensorPlugin`; `Load` and
  `OnUpdate` take the object and return the updated object.
* Link pointers are `Option LinkPtr`; dereferencing a null pointer, and a
  remainder by zero, end the call with a `Fault`.
* `std::deque::front` on an empty deque is undefined. The embedding records
  that the read happened in `TickOutput.front_on_empty` and continues with the
  comparison taken as false, so that the run after such a read can still be
  talked about.
* Integers of the source are machine integers. `measurement_delay_` and
  `measurement_divisor_` are `int` (line 86, 87); the counters
  `gazebo_sequence_`, `wrench_sequence_` and the release tick of a queue
  element, declared in the plugin's header, are taken as `int` too, the type of
  the delay that line 182 adds to the counter. A value of an `int` is an
  integer from -2147483648 to 2147483647, and the result of an `int` operation
  is `wrapInt` of its exact value (two's complement; where the exact value is
  out of range C++ leaves the behaviour undefined). The fields `seq`, `sec` and
  `nsec` of a message header are `uint32` and hold `wrapUInt32` of what is
  assigned to them. Theorems about runs say which ticks they cover.
* Scalars are elements of a type `K` (exact arithmetic); rounding of `double`
  is not represented.
* What comes from libraries (the random engine and the distributions,
  `ros::Duration`, `math::Pose`) is a parameter: the record `Library`, and a
  pose type `P` with a subtraction and a zero.
-/

namespace gazebo

/-! ## Messages -/

/-- Three components, as `math::Vector3` and `geometry_msgs::Vector3`. -/
structure Vector3 (K : Type) where
  x : K
  y : K
  z : K
deriving DecidableEq

/-- Seconds and nanoseconds, as `common::Time`, `ros::Time` and `ros::Duration`. -/
structure Time where
  sec : Int
  nsec : Int
deriving DecidableEq

/-- Header of a stamped message, as `std_msgs::Header`; `seq` and the two fields
of `stamp` are `uint32`. -/
structure Header where
  frame_id : String
  seq : Int
  stamp : Time
deriving DecidableEq

/-- Force and torque, as `geometry_msgs::Wrench`. -/
structure Wrench (K : Type) where
  force : Vector3 K
  torque : Vector3 K
deriving DecidableEq

/-- Stamped wrench, as `geometry_msgs::WrenchStamped`. -/
structure WrenchStamped (K : Type) where
  header : Header
  wrench : Wrench K
deriving DecidableEq

/-- Transform with stamp and the two frame names, as `tf::StampedTransform`
(constructor arguments: transform, stamp, frame id, child frame id). -/
structure StampedTransform (P : Type) where
  transform : P
  stamp : Time
  frame_id : String
  child_frame_id : String
deriving DecidableEq

/-! ## Library parameters -/

/-- Parameters of a normal distribution object (`NormalDistribution(mean, stddev)`). -/
structure NormalDistribution (K : Type) where
  mean : K
  stddev : K
deriving DecidableEq

/-- Parameters of a uniform distribution object (`UniformDistribution(a, b)`). -/
structure UniformDistribution (K : Type) where
  a : K
  b : K
deriving DecidableEq

/-- Array of three, indexed 0, 1, 2. -/
structure Array3 (α : Type) where
  e0 : α
  e1 : α
  e2 : α
deriving DecidableEq

/-- Library operations the plugin calls, taken as parameters. `G` is the state
of the random machinery; a draw returns the value and the next state. -/
structure Library (K G : Type) where
  seed : Nat → G
  normal : NormalDistribution K → G → K × G
  uniform : UniformDistribution K → G → K × G
  Duration : K → Time

/-! ## Physics collaborator -/

/-- Handle of a link of the model. -/
abbrev LinkPtr := Nat

/-- What a link answers within one tick. -/
structure LinkState (K P : Type) where
  GetWorldCoGPose : P
  GetRelativeForce : Vector3 K
  GetRelativeTorque : Vector3 K

/-- The model at load time: link lookup by name (`model_->GetLink`). -/
structure Model where
  GetLink : String → Option LinkPtr

/-- The world as seen by one call of `OnUpdate`. -/
structure World (K P : Type) where
  GetSimTime : Time
  link : LinkPtr → LinkState K P
  force_sensor_subscribers : Nat
  force_sensor_truth_subscribers : Nat

/-- The configuration element handed to `Load`; an absent element is `none`. -/
structure Sdf (K : Type) where
  robotNamespace : Option String
  linkName : Option String
  randomEngineSeed : Option Nat
  forceSensorTopic : Option String
  forceSensorTruthTopic : Option String
  parentFrameId : Option String
  referenceFrameId : Option String
  noiseNormalLinearForce : Option (Vector3 K)
  noiseNormalTorque : Option (Vector3 K)
  noiseUniformLinearForce : Option (Vector3 K)
  noiseUniformTorque : Option (Vector3 K)
  measurementDelay : Option Int
  measurementDivisor : Option Int
  unknownDelay : Option K

/-! ## The plugin object -/

/-- Members of `GazeboForceSensorPlugin` that `Load` and `OnUpdate` use. The
integer members are C++ `int`. `updateConnection_` is true once `OnUpdate` is
connected to the world update event; `advertised` is true once the two
publishers are advertised. -/
structure GazeboForceSensorPlugin (K G : Type) where
  namespace_ : String
  link_name_ : String
  force_sensor_pub_topic_ : String
  force_sensor_truth_pub_topic_ : String
  parent_frame_id_ : String
  reference_frame_id_ : String
  link_ : Option LinkPtr
  parent_link_ : Option LinkPtr
  reference_link_ : Option LinkPtr
  measurement_delay_ : Int
  measurement_divisor_ : Int
  unknown_delay_ : K
  linear_force_n_ : Array3 (NormalDistribution K)
  torque_n_ : Array3 (NormalDistribution K)
  linear_force_u_ : Array3 (UniformDistribution K)
  torque_u_ : Array3 (UniformDistribution K)
  random_generator_ : G
  gazebo_sequence_ : Int
  wrench_sequence_ : Int
  wrench_msg_ : WrenchStamped K
  wrench_queue_ : List (Int × WrenchStamped K)
  updateConnection_ : Bool
  advertised : Bool

/-- Modelled from the spec: the constant `kDefaultParentFrameId` is declared in
the plugin's header, which is not among the sources; the spec gives the default
parent frame as "world". -/
def kDefaultParentFrameId : String := "world"

/-- Modelled from the spec: the constant `kDefaultReferenceFrameId` is declared
in the plugin's header, which is not among the sources; the spec gives the
default reference frame as "world". -/
def kDefaultReferenceFrameId : String := "world"

/-- Modelled from the spec: `getSdfParam` is defined in `common.h`, which is not
among the sources; a configured element gives its value, an absent one the
default passed by the caller. -/
def getSdfParam {T : Type} (element : Option T) (default_value : T) : T :=
  match element with
  | some v => v
  | none => default_value

/-- The pattern of lines 55-58 and 62-65 of `Load`: when the element is there
(`HasElement`) the member takes its value, otherwise it keeps the value it had
(and an error is logged). -/
def hasElementOrKeep {T : Type} (element : Option T) (member : T) : T :=
  match element with
  | some v => v
  | none => member

/-- What ends a call of `OnUpdate` abnormally. -/
inductive Fault where
  | nullLink
  | nullParentLink
  | nullReferenceLink
  | divideByZero
  | remainderOverflow
deriving DecidableEq

/-- The value an `int` holds after an operation whose exact result is `x`:
32 bits, two's complement. -/
def wrapInt (x : Int) : Int := (x + 2147483648) % 4294967296 - 2147483648

/-- The value a `uint32` holds after `x` is assigned to it. -/
def wrapUInt32 (x : Int) : Int := x % 4294967296

/-- Dereference of a link pointer. -/
def deref (f : Fault) (p : Option LinkPtr) : Except Fault LinkPtr :=
  match p with
  | some l => .ok l
  | none => .error f

/-! ## Load -/

/-- Embedding of `GazeboForceSensorPlugin::Load` (lines 42-122). `now` is the
system clock count used as seed when no seed is configured. The result is
`.error` where the source throws (`gzthrow`); the `gzerr` messages are not
represented. -/
def Load {K G : Type} [Zero K] [Neg K] (lib : Library K G) (now : Nat)
    (self : GazeboForceSensorPlugin K G) (_model : Model) (_sdf : Sdf K) :
    Except String (GazeboForceSensorPlugin K G) :=
  let zeros3 : Vector3 K := ⟨0, 0, 0⟩
  let namespace_ := hasElementOrKeep _sdf.robotNamespace self.namespace_
  let link_name_ := hasElementOrKeep _sdf.linkName self.link_name_
  let link_ := _model.GetLink link_name_
  if link_ = none then
    .error "[gazebo_force_sensor_plugin] Couldn't find specified link"
  else
    let random_generator_ := match _sdf.randomEngineSeed with
      | some s => lib.seed s
      | none => lib.seed now
    let force_sensor_pub_topic_ := getSdfParam _sdf.forceSensorTopic self.force_sensor_pub_topic_
    let force_sensor_truth_pub_topic_ :=
      getSdfParam _sdf.forceSensorTruthTopic self.force_sensor_truth_pub_topic_
    let parent_frame_id_ := getSdfParam _sdf.parentFrameId self.parent_frame_id_
    let reference_frame_id_ := getSdfParam _sdf.referenceFrameId self.reference_frame_id_
    let noise_normal_linear_force := getSdfParam _sdf.noiseNormalLinearForce zeros3
    let noise_normal_torque := getSdfParam _sdf.noiseNormalTorque zeros3
    let noise_uniform_linear_force := getSdfParam _sdf.noiseUniformLinearForce zeros3
    let noise_uniform_torque := getSdfParam _sdf.noiseUniformTorque zeros3
    let measurement_delay_ := getSdfParam _sdf.measurementDelay self.measurement_delay_
    let measurement_divisor_ := getSdfParam _sdf.measurementDivisor self.measurement_divisor_
    let unknown_delay_ := getSdfParam _sdf.unknownDelay self.unknown_delay_
    let parent_link_ := _model.GetLink parent_frame_id_
    if parent_link_ = none ∧ parent_frame_id_ ≠ kDefaultParentFrameId then
      .error "[gazebo_force_sensor_plugin] Couldn't find specified parent link"
    else
      let reference_link_ := _model.GetLink reference_frame_id_
      if reference_link_ = none ∧ reference_frame_id_ ≠ kDefaultReferenceFrameId then
        .error "[gazebo_force_sensor_plugin] Couldn't find specified reference frame"
      else
        .ok { self with
          wrench_queue_ := []
          namespace_ := namespace_
          link_name_ := link_name_
          link_ := link_
          random_generator_ := random_generator_
          force_sensor_pub_topic_ := force_sensor_pub_topic_
          force_sensor_truth_pub_topic_ := force_sensor_truth_pub_topic_
          parent_frame_id_ := parent_frame_id_
          reference_frame_id_ := reference_frame_id_
          measurement_delay_ := measurement_delay_
          measurement_divisor_ := measurement_divisor_
          unknown_delay_ := unknown_delay_
          parent_link_ := parent_link_
          reference_link_ := reference_link_
          linear_force_n_ :=
            ⟨⟨0, noise_normal_linear_force.x⟩, ⟨0, noise_normal_linear_force.y⟩,
              ⟨0, noise_normal_linear_force.z⟩⟩
          torque_n_ :=
            ⟨⟨0, noise_normal_torque.x⟩, ⟨0, noise_normal_torque.y⟩,
              ⟨0, noise_normal_torque.z⟩⟩
          linear_force_u_ :=
            ⟨⟨-noise_uniform_linear_force.x, noise_uniform_linear_force.x⟩,
              ⟨-noise_uniform_linear_force.y, noise_uniform_linear_force.y⟩,
              ⟨-noise_uniform_linear_force.z, noise_uniform_linear_force.z⟩⟩
          torque_u_ :=
            ⟨⟨-noise_uniform_torque.x, noise_uniform_torque.x⟩,
              ⟨-noise_uniform_torque.y, noise_uniform_torque.y⟩,
              ⟨-noise_uniform_torque.z, noise_uniform_torque.z⟩⟩
          updateConnection_ := true
          advertised := true }

/-! ## OnUpdate -/

/-- The three poses `gazebo_pose`, `gazebo_parent_pose`, `gazebo_reference_pose`
computed at the top of `OnUpdate`. -/
structure FramePoses (P : Type) where
  gazebo_pose : P
  gazebo_parent_pose : P
  gazebo_reference_pose : P

/-- Lines 130-149 of `OnUpdate`: application point computation. -/
def applicationPoint {K G P : Type} [Sub P] [Zero P] (self : GazeboForceSensorPlugin K G)
    (world_ : World K P) : Except Fault (FramePoses P) := do
  let link ← deref .nullLink self.link_
  let W_pose_W_C : P := (world_.link link).GetWorldCoGPose
  let first : FramePoses P × P ←
    if self.parent_frame_id_ ≠ kDefaultParentFrameId then do
      let parent ← deref .nullParentLink self.parent_link_
      let W_pose_W_P : P := (world_.link parent).GetWorldCoGPose
      let C_pose_P_C : P := W_pose_W_C - W_pose_W_P
      pure (⟨C_pose_P_C, W_pose_W_P, 0⟩, W_pose_W_P)
    else
      pure (⟨W_pose_W_C, 0, 0⟩, 0)
  let W_pose_W_P : P := first.2
  if self.reference_frame_id_ ≠ kDefaultReferenceFrameId ∧
      self.reference_frame_id_ ≠ self.parent_frame_id_ then do
    let reference ← deref .nullReferenceLink self.reference_link_
    let W_pose_W_R : P := (world_.link reference).GetWorldCoGPose
    let P_pose_R_P : P := W_pose_W_P - W_pose_W_R
    pure ⟨first.1.gazebo_pose, P_pose_R_P, W_pose_W_R⟩
  else
    pure first.1

/-- Lines 157-165 of `OnUpdate`: force and torque read from `parent_link_`. -/
def forceParsing {K G P : Type} (self : GazeboForceSensorPlugin K G) (world_ : World K P) :
    Except Fault (Vector3 K × Vector3 K) := do
  let parent ← deref .nullParentLink self.parent_link_
  pure ((world_.link parent).GetRelativeForce, (world_.link parent).GetRelativeTorque)

/-- Lines 167-183 of `OnUpdate`: on a sampling tick fill `wrench_msg_` and push
it with its release tick. Returns the object and the pushed element, if any.
The remainder of line 167 is the C++ one (truncated division); it is a fault
for the divisor 0 and for -2147483648 % -1. -/
def sampleStep {K G : Type} (lib : Library K G) (self : GazeboForceSensorPlugin K G)
    (simTime : Time) (force torque : Vector3 K) :
    Except Fault (GazeboForceSensorPlugin K G × Option (Int × WrenchStamped K)) :=
  if self.measurement_divisor_ = 0 then .error .divideByZero
  else if self.gazebo_sequence_ = -2147483648 ∧ self.measurement_divisor_ = -1 then
    .error .remainderOverflow
  else if Int.tmod self.gazebo_sequence_ self.measurement_divisor_ = 0 then
    let wrench_msg_ : WrenchStamped K :=
      { header :=
          { frame_id := self.parent_frame_id_
            seq := wrapUInt32 self.wrench_sequence_
            stamp :=
              { sec := wrapUInt32 (simTime.sec + (lib.Duration self.unknown_delay_).sec)
                nsec := wrapUInt32 (simTime.nsec + (lib.Duration self.unknown_delay_).nsec) } }
        wrench :=
          { force := ⟨force.x, force.y, force.z⟩
            torque := ⟨torque.x, torque.y, torque.z⟩ } }
    let entry := (wrapInt (self.gazebo_sequence_ + self.measurement_delay_), wrench_msg_)
    .ok ({ self with
            wrench_sequence_ := wrapInt (self.wrench_sequence_ + 1)
            wrench_msg_ := wrench_msg_
            wrench_queue_ := self.wrench_queue_ ++ [entry] }, some entry)
  else .ok (self, none)

/-- Lines 201-205 and 211-215 of `OnUpdate`: one normal and one uniform draw per
axis, summed. The draws are threaded left to right. -/
def distortion {K G : Type} [Add K] (lib : Library K G) (n : Array3 (NormalDistribution K))
    (u : Array3 (UniformDistribution K)) (g : G) : Vector3 K × G :=
  let n0 := lib.normal n.e0 g
  let u0 := lib.uniform u.e0 n0.2
  let n1 := lib.normal n.e1 u0.2
  let u1 := lib.uniform u.e1 n1.2
  let n2 := lib.normal n.e2 u1.2
  let u2 := lib.uniform u.e2 n2.2
  (⟨n0.1 + u0.1, n1.1 + u1.1, n2.1 + u2.1⟩, u2.2)

/-- Lines 229-249 of `OnUpdate`: the transforms sent for one release, in order. -/
def sendTransforms {K G P : Type} (self : GazeboForceSensorPlugin K G) (poses : FramePoses P)
    (stamp : Time) : List (StampedTransform P) :=
  [⟨poses.gazebo_pose, stamp, self.parent_frame_id_, self.namespace_⟩]
  ++ (if self.parent_frame_id_ ≠ kDefaultParentFrameId ∧
        self.reference_frame_id_ ≠ self.parent_frame_id_ then
        [⟨poses.gazebo_parent_pose, stamp, self.reference_frame_id_, self.parent_frame_id_⟩]
      else [])
  ++ (if self.reference_frame_id_ ≠ kDefaultReferenceFrameId then
        [⟨poses.gazebo_reference_pose, stamp, "world", self.reference_frame_id_⟩]
      else [])

/-- What one release hands to the outside: the element removed from the queue,
the two wrench messages, whether each was published, and the transforms. -/
structure Release (K P : Type) where
  popped : Int × WrenchStamped K
  true_forces : WrenchStamped K
  noisy_forces : WrenchStamped K
  noisy_published : Bool
  truth_published : Bool
  transforms : List (StampedTransform P)

/-- What one call of `OnUpdate` did: the element pushed (if any), whether the
release check read the front of an empty queue, and the release (if any). -/
structure TickOutput (K P : Type) where
  pushed : Option (Int × WrenchStamped K)
  front_on_empty : Bool
  release : Option (Release K P)

/-- Lines 185-250 of `OnUpdate`: the release check and the release. -/
def releaseStep {K G P : Type} [Add K] (lib : Library K G) (self : GazeboForceSensorPlugin K G)
    (world_ : World K P) (poses : FramePoses P) :
    GazeboForceSensorPlugin K G × Bool × Option (Release K P) :=
  match self.wrench_queue_ with
  | [] => (self, true, none)
  | front :: rest =>
    if self.gazebo_sequence_ = front.1 then
      let true_forces : WrenchStamped K := ⟨front.2.header, front.2.wrench⟩
      let linear_force_n := distortion lib self.linear_force_n_ self.linear_force_u_
        self.random_generator_
      let torque_n := distortion lib self.torque_n_ self.torque_u_ linear_force_n.2
      let noisy_forces : WrenchStamped K :=
        { header := true_forces.header
          wrench :=
            { force :=
                ⟨true_forces.wrench.force.x + linear_force_n.1.x,
                  true_forces.wrench.force.y + linear_force_n.1.y,
                  true_forces.wrench.force.z + linear_force_n.1.z⟩
              torque :=
                ⟨true_forces.wrench.torque.x + torque_n.1.x,
                  true_forces.wrench.torque.y + torque_n.1.y,
                  true_forces.wrench.torque.z + torque_n.1.z⟩ } }
      ({ self with wrench_queue_ := rest, random_generator_ := torque_n.2 }, false,
        some
          { popped := front
            true_forces := true_forces
            noisy_forces := noisy_forces
            noisy_published := decide (world_.force_sensor_subscribers ≥ 0)
            truth_published := decide (world_.force_sensor_truth_subscribers > 0)
            transforms := sendTransforms self poses true_forces.header.stamp })
    else (self, false, none)

/-- Embedding of `GazeboForceSensorPlugin::OnUpdate` (lines 126-252). -/
def OnUpdate {K G P : Type} [Add K] [Sub P] [Zero P] (lib : Library K G)
    (self : GazeboForceSensorPlugin K G) (world_ : World K P) :
    Except Fault (GazeboForceSensorPlugin K G × TickOutput K P) := do
  let poses ← applicationPoint self world_
  let ft ← forceParsing self world_
  let sampled ← sampleStep lib self world_.GetSimTime ft.1 ft.2
  let released := releaseStep lib sampled.1 world_ poses
  pure ({ released.1 with gazebo_sequence_ := wrapInt (released.1.gazebo_sequence_ + 1) },
    { pushed := sampled.2, front_on_empty := released.2.1, release := released.2.2 })

/-! ## Runs -/

/-- The plugin object after the first `n` calls of `OnUpdate`, call `t` seeing
the world `worlds t`. -/
def stateAfter {K G P : Type} [Add K] [Sub P] [Zero P] (lib : Library K G)
    (self : GazeboForceSensorPlugin K G) (worlds : Nat → World K P) :
    Nat → Except Fault (GazeboForceSensorPlugin K G)
  | 0 => .ok self
  | n + 1 => do
    let s ← stateAfter lib self worlds n
    let r ← OnUpdate lib s (worlds n)
    pure r.1

/-- What call number `t` of the run did. -/
def tickOutput {K G P : Type} [Add K] [Sub P] [Zero P] (lib : Library K G)
    (self : GazeboForceSensorPlugin K G) (worlds : Nat → World K P) (t : Nat) :
    Except Fault (TickOutput K P) := do
  let s ← stateAfter lib self worlds t
  let r ← OnUpdate lib s (worlds t)
  pure r.2

/-! ## Description of a run -/

/-- Number of sampling ticks (multiples of `D`) below `n`. -/
def samplesBefore (D : Nat) : Nat → Nat
  | 0 => 0
  | n + 1 => samplesBefore D n + (if n % D = 0 then 1 else 0)

/-- The sample of tick `T` is still held when the counter is `n`: `T` is a
sampling tick and its release tick `T + L` is `n` or later, or the delay is
negative (the release tick is then behind the counter from the start and the
sample never leaves). -/
def held (D : Nat) (L : Int) (n T : Nat) : Bool :=
  decide (T % D = 0) && (decide (L < 0) || decide ((n : Int) ≤ (T : Int) + L))

/-- Sampling ticks below `n` whose sample is held between call `n - 1` and call
`n`. -/
def inflight (D : Nat) (L : Int) (n : Nat) : List Nat :=
  (List.range n).filter (held D L n)

/-- Sampling ticks up to `n` whose sample is held when call `n` reaches its
release check. -/
def atCheck (D : Nat) (L : Int) (n : Nat) : List Nat :=
  (List.range (n + 1)).filter (held D L n)

/-- The queue element that the call at sampling tick `T` pushes, in a run that
starts from `self`, with the force and torque read from link `pl`. -/
def entryAt {K G P : Type} (lib : Library K G) (self : GazeboForceSensorPlugin K G)
    (worlds : Nat → World K P) (pl : LinkPtr) (D : Nat) (L : Int) (T : Nat) :
    Int × WrenchStamped K :=
  ((T : Int) + L,
    { header :=
        { frame_id := self.parent_frame_id_
          seq := wrapUInt32 (self.wrench_sequence_ + (samplesBefore D T : Nat))
          stamp :=
            { sec := wrapUInt32
                ((worlds T).GetSimTime.sec + (lib.Duration self.unknown_delay_).sec)
              nsec := wrapUInt32
                ((worlds T).GetSimTime.nsec + (lib.Duration self.unknown_delay_).nsec) } }
      wrench :=
        { force := ((worlds T).link pl).GetRelativeForce
          torque := ((worlds T).link pl).GetRelativeTorque } })

/-- Start of a run with divisor `D` and delay `L`: the divisor, the delay and the
message counter are values of an `int`, the tick counter is zero, the queue is empty,
and the link pointers that `OnUpdate` dereferences are not null. -/
structure Ready {K G : Type} (start : GazeboForceSensorPlugin K G) (D : Nat) (L : Int) :
    Prop where
  divisor : start.measurement_divisor_ = (D : Int)
  delay : start.measurement_delay_ = L
  delay_int : -2147483648 ≤ L ∧ L ≤ 2147483647
  pos : 1 ≤ D
  divisor_int : (D : Int) ≤ 2147483647
  seq : start.gazebo_sequence_ = 0
  count_int : -2147483648 ≤ start.wrench_sequence_ ∧ start.wrench_sequence_ ≤ 2147483647
  queue : start.wrench_queue_ = []
  link : start.link_ ≠ none
  parent : start.parent_link_ ≠ none
  reference : start.reference_frame_id_ ≠ kDefaultReferenceFrameId →
    start.reference_frame_id_ ≠ start.parent_frame_id_ → start.reference_link_ ≠ none

/-- The tick `t` and the release tick `t + L` that line 182 computes at it are
values of an `int`: call `t` of a run has no signed overflow before its
increment of the counter. -/
def InRange (L : Int) (t : Nat) : Prop :=
  (t : Int) ≤ 2147483647 ∧ (t : Int) + L ≤ 2147483647

/-- Every call before call `n` stays within `int` (`InRange`). -/
def InRangeBefore (L : Int) (n : Nat) : Prop :=
  (n : Int) ≤ 2147483648 ∧ (n : Int) + L ≤ 2147483648

/-- The members that `OnUpdate` never writes agree between two objects. -/
structure SameSetup {K G : Type} (a b : GazeboForceSensorPlugin K G) : Prop where
  namespace_ : b.namespace_ = a.namespace_
  parent_frame_id_ : b.parent_frame_id_ = a.parent_frame_id_
  reference_frame_id_ : b.reference_frame_id_ = a.reference_frame_id_
  link_ : b.link_ = a.link_
  parent_link_ : b.parent_link_ = a.parent_link_
  reference_link_ : b.reference_link_ = a.reference_link_
  measurement_delay_ : b.measurement_delay_ = a.measurement_delay_
  measurement_divisor_ : b.measurement_divisor_ = a.measurement_divisor_
  unknown_delay_ : b.unknown_delay_ = a.unknown_delay_
  linear_force_n_ : b.linear_force_n_ = a.linear_force_n_
  torque_n_ : b.torque_n_ = a.torque_n_
  linear_force_u_ : b.linear_force_u_ = a.linear_force_u_
  torque_u_ : b.torque_u_ = a.torque_u_

/-- The object `s` is what a run from `start` looks like after `n` calls. -/
structure AfterTicks {K G P : Type} (lib : Library K G) (start : GazeboForceSensorPlugin K G)
    (worlds : Nat → World K P) (pl : LinkPtr) (D : Nat) (L : Int) (n : Nat)
    (s : GazeboForceSensorPlugin K G) : Prop where
  setup : SameSetup start s
  seq : s.gazebo_sequence_ = wrapInt (n : Int)
  count : s.wrench_sequence_ = wrapInt (start.wrench_sequence_ + (samplesBefore D n : Nat))
  queue : s.wrench_queue_ = (inflight D L n).map (entryAt lib start worlds pl D L)

/-- What call `n` of a run from `start` does. -/
structure TickSpec {K G P : Type} (lib : Library K G) (start : GazeboForceSensorPlugin K G)
    (worlds : Nat → World K P) (pl : LinkPtr) (D : Nat) (L : Int) (n : Nat)
    (out : TickOutput K P) : Prop where
  pushed : out.pushed = if n % D = 0 then some (entryAt lib start worlds pl D L n) else none
  front : out.front_on_empty = (atCheck D L n).isEmpty
  popped : out.release.map Release.popped =
    if 0 ≤ L ∧ L ≤ (n : Int) ∧ (n - L.toNat) % D = 0 then
      some (entryAt lib start worlds pl D L (n - L.toNat))
    else none
  truth : ∀ r, out.release = some r → r.true_forces = r.popped.2

/-- The first `n` calls of the run are free of undefined behaviour: each stays
within `int` and returns, and none reads the front of an empty queue. -/
def Defined {K G P : Type} [Add K] [Sub P] [Zero P] (lib : Library K G)
    (start : GazeboForceSensorPlugin K G) (worlds : Nat → World K P) (L : Int) (n : Nat) :
    Prop :=
  ∀ m, m < n → InRange L m ∧
    ∃ out, tickOutput lib start worlds m = .ok out ∧ out.front_on_empty = false

/-! ## Poses -/

/-- Modelled from the spec: `math::Quaternion` belongs to the simulator's math
library, which is not among the sources; the spec calls the pose arithmetic
quaternion-aware. Components in the order w, x, y, z. -/
structure Quaternion (K : Type) where
  w : K
  x : K
  y : K
  z : K
deriving DecidableEq

/-- Modelled from the spec: `math::Pose` belongs to the simulator's math
library, which is not among the sources; the spec's data model gives a pose as
a position 3-vector and an orientation quaternion. -/
structure Pose (K : Type) where
  pos : Vector3 K
  rot : Quaternion K
deriving DecidableEq

/-- Modelled from the spec: the product of two quaternions (Hamilton product),
the composition of two rotations. The library that defines it is not among
the sources. -/
def Quaternion.mul {K : Type} [CommRing K] (a b : Quaternion K) : Quaternion K :=
  ⟨a.w * b.w - a.x * b.x - a.y * b.y - a.z * b.z,
   a.w * b.x + a.x * b.w + a.y * b.z - a.z * b.y,
   a.w * b.y - a.x * b.z + a.y * b.w + a.z * b.x,
   a.w * b.z + a.x * b.y - a.y * b.x + a.z * b.w⟩

/-- Modelled from the spec: the conjugate, which on quaternions of norm one is
the inverse rotation. The library that defines it is not among the sources. -/
def Quaternion.conj {K : Type} [CommRing K] (a : Quaternion K) : Quaternion K :=
  ⟨a.w, -a.x, -a.y, -a.z⟩

/-- Modelled from the spec: the squared norm of a quaternion. The library that
defines it is not among the sources. -/
def Quaternion.normSq {K : Type} [CommRing K] (a : Quaternion K) : K :=
  a.w * a.w + a.x * a.x + a.y * a.y + a.z * a.z

/-- Modelled from the spec: the quaternion of no rotation. The library that
defines it is not among the sources. -/
def Quaternion.identity {K : Type} [CommRing K] : Quaternion K := ⟨1, 0, 0, 0⟩

/-- Modelled from the spec: a vector as a quaternion without scalar part. The
library that defines it is not among the sources. -/
def Quaternion.ofVector {K : Type} [CommRing K] (v : Vector3 K) : Quaternion K :=
  ⟨0, v.x, v.y, v.z⟩

/-- Modelled from the spec: the vector part of a quaternion. The library that
defines it is not among the sources. -/
def Quaternion.vec {K : Type} (a : Quaternion K) : Vector3 K := ⟨a.x, a.y, a.z⟩

/-- Modelled from the spec: rotation of a vector `v` by a quaternion `q` of norm
one, the vector part of `q v q*`. The library that defines it is not among the
sources. -/
def Quaternion.rotate {K : Type} [CommRing K] (q : Quaternion K) (v : Vector3 K) : Vector3 K :=
  ((q.mul (Quaternion.ofVector v)).mul q.conj).vec

/-- Modelled from the spec: sum of two vectors. The library that defines it is
not among the sources. -/
def Vector3.add {K : Type} [Add K] (a b : Vector3 K) : Vector3 K :=
  ⟨a.x + b.x, a.y + b.y, a.z + b.z⟩

/-- Modelled from the spec: opposite of a vector. The library that defines it is
not among the sources. -/
def Vector3.neg {K : Type} [Neg K] (a : Vector3 K) : Vector3 K := ⟨-a.x, -a.y, -a.z⟩

/-- Modelled from the spec: composition of rigid transforms, `compose(a, b)`:
first `b`, then `a`. The library that defines it is not among the sources. -/
def Pose.compose {K : Type} [CommRing K] (a b : Pose K) : Pose K :=
  ⟨a.pos.add (a.rot.rotate b.pos), a.rot.mul b.rot⟩

/-- Modelled from the spec: inverse of a rigid transform, `inverse(b)`, for an
orientation of norm one. The library that defines it is not among the sources. -/
def Pose.inverse {K : Type} [CommRing K] (b : Pose K) : Pose K :=
  ⟨(b.rot.conj.rotate b.pos).neg, b.rot.conj⟩

/-- Modelled from the spec: the pose subtraction `a - b` of `math::Pose`, which
the spec gives as `compose(inverse(b), a)`, the pose `a` seen from the frame
`b`. The library that defines it is not among the sources. -/
def Pose.sub {K : Type} [CommRing K] (a b : Pose K) : Pose K :=
  Pose.compose (Pose.inverse b) a

/-- Modelled from the spec: `math::Pose::Zero`, the pose at the origin without
rotation. The library that defines it is not among the sources. -/
def Pose.Zero {K : Type} [CommRing K] : Pose K := ⟨⟨0, 0, 0⟩, Quaternion.identity⟩

instance {K : Type} [CommRing K] : Sub (Pose K) := ⟨Pose.sub⟩

instance {K : Type} [CommRing K] : Zero (Pose K) := ⟨Pose.Zero⟩

/-- The orientation of a pose has norm one. -/
def Pose.Unit {K : Type} [CommRing K] (a : Pose K) : Prop := a.rot.normSq = 1

/-! ## A small installation for closed examples -/

/-- A library for the examples: the engine state is a counter, a normal draw is
`mean + stddev * state`, a uniform draw is `a + (b - a) * (state % 2)`. -/
def exampleLibrary : Library Int Nat where
  seed := fun n => n
  normal := fun d g => (d.mean + d.stddev * (g : Int), g + 1)
  uniform := fun d g => (d.a + (d.b - d.a) * ((g % 2 : Nat) : Int), g + 1)
  Duration := fun k => ⟨k, 0⟩

/-- A model with three links: the sensor link, an arm and a base. It has no
link named "world". -/
def exampleModel : Model where
  GetLink := fun name =>
    if name = "sensor" then some 0
    else if name = "arm" then some 1
    else if name = "base" then some 2
    else none

/-- The plugin object before `Load`: both frames at their default, delay 0,
divisor 1, counters at zero, empty queue. -/
def exampleObject : GazeboForceSensorPlugin Int Nat where
  namespace_ := ""
  link_name_ := ""
  force_sensor_pub_topic_ := "force_sensor"
  force_sensor_truth_pub_topic_ := "force_sensor_truth"
  parent_frame_id_ := kDefaultParentFrameId
  reference_frame_id_ := kDefaultReferenceFrameId
  link_ := none
  parent_link_ := none
  reference_link_ := none
  measurement_delay_ := 0
  measurement_divisor_ := 1
  unknown_delay_ := 0
  linear_force_n_ := ⟨⟨0, 0⟩, ⟨0, 0⟩, ⟨0, 0⟩⟩
  torque_n_ := ⟨⟨0, 0⟩, ⟨0, 0⟩, ⟨0, 0⟩⟩
  linear_force_u_ := ⟨⟨0, 0⟩, ⟨0, 0⟩, ⟨0, 0⟩⟩
  torque_u_ := ⟨⟨0, 0⟩, ⟨0, 0⟩, ⟨0, 0⟩⟩
  random_generator_ := 0
  gazebo_sequence_ := 0
  wrench_sequence_ := 0
  wrench_msg_ := ⟨⟨"", 0, ⟨0, 0⟩⟩, ⟨⟨0, 0, 0⟩, ⟨0, 0, 0⟩⟩⟩
  wrench_queue_ := []
  updateConnection_ := false
  advertised := false

/-- A configuration element for the examples: sensor link "sensor", seed 42,
the given frames, delay and divisor, and no noise. -/
def exampleSdf (parent reference : Option String) (delay divisor : Int) : Sdf Int where
  robotNamespace := some "drone"
  linkName := some "sensor"
  randomEngineSeed := some 42
  forceSensorTopic := none
  forceSensorTruthTopic := none
  parentFrameId := parent
  referenceFrameId := reference
  noiseNormalLinearForce := none
  noiseNormalTorque := none
  noiseUniformLinearForce := none
  noiseUniformTorque := none
  measurementDelay := some delay
  measurementDivisor := some divisor
  unknownDelay := none

/-- The plugin object that `Load` leaves for `exampleSdf`; the object is left
as it was when `Load` throws. -/
def exampleLoaded (parent reference : Option String) (delay divisor : Int) :
    GazeboForceSensorPlugin Int Nat :=
  match Load exampleLibrary 0 exampleObject exampleModel
      (exampleSdf parent reference delay divisor) with
  | .ok p => p
  | .error _ => exampleObject

/-- World pose of the links of `exampleModel`: the sensor is turned half a turn
about z, the arm half a turn about x, the base a half turn about y. -/
def examplePose (l : LinkPtr) : Pose Int :=
  if l = 0 then ⟨⟨1, 2, 3⟩, ⟨0, 0, 0, 1⟩⟩
  else if l = 1 then ⟨⟨4, 5, 6⟩, ⟨0, 1, 0, 0⟩⟩
  else ⟨⟨7, 8, 9⟩, ⟨0, 0, 1, 0⟩⟩

/-- The world of the examples at tick `t`: the force on a link changes with the
tick, both topics have one subscriber. -/
def exampleWorld (t : Nat) : World Int (Pose Int) where
  GetSimTime := ⟨t, 0⟩
  link := fun l => ⟨examplePose l, ⟨(t : Int) + 1, 0, 0⟩, ⟨0, (t : Int), 0⟩⟩
  force_sensor_subscribers := 1
  force_sensor_truth_subscribers := 1

/-- All six normal distributions are as `Load` builds them from standard
deviation zero, and all six uniform distributions as it builds them from
half-width zero. -/
def ZeroNoise {K G : Type} [Zero K] [Neg K] (self : GazeboForceSensorPlugin K G) : Prop :=
  self.linear_force_n_ = ⟨⟨0, 0⟩, ⟨0, 0⟩, ⟨0, 0⟩⟩ ∧
  self.torque_n_ = ⟨⟨0, 0⟩, ⟨0, 0⟩, ⟨0, 0⟩⟩ ∧
  self.linear_force_u_ = ⟨⟨-0, 0⟩, ⟨-0, 0⟩, ⟨-0, 0⟩⟩ ∧
  self.torque_u_ = ⟨⟨-0, 0⟩, ⟨-0, 0⟩, ⟨-0, 0⟩⟩

/-! ## Machine integers -/

theorem wrapInt_of_int {x : Int} (h1 : -2147483648 ≤ x) (h2 : x ≤ 2147483647) :
    wrapInt x = x := by
  unfold wrapInt
  omega

theorem wrapInt_add (a b : Int) : wrapInt (wrapInt a + b) = wrapInt (a + b) := by
  unfold wrapInt
  omega

theorem wrapUInt32_wrapInt (a : Int) : wrapUInt32 (wrapInt a) = wrapUInt32 a := by
  unfold wrapUInt32 wrapInt
  omega

theorem InRange.before {L : Int} {t : Nat} (h : InRange L t) : InRangeBefore L t := by
  unfold InRange at h
  unfold InRangeBefore
  omega

theorem InRange.before_succ {L : Int} {t : Nat} (h : InRange L t) : InRangeBefore L (t + 1) := by
  unfold InRange at h
  unfold InRangeBefore
  omega

/-! ## The lists of held samples -/

theorem atCheck_eq (D : Nat) (L : Int) (n : Nat) :
    atCheck D L n = inflight D L n ++ (if n % D = 0 then [n] else []) := by
  have hself : held D L n n = decide (n % D = 0) := by
    unfold held
    by_cases hL : L < 0
    · simp [hL]
    · have : (n : Int) ≤ (n : Int) + L := by omega
      simp [hL, this]
  unfold atCheck inflight
  rw [List.range_succ, List.filter_append]
  congr 1
  by_cases h : n % D = 0 <;> simp [List.filter, hself, h]

theorem mem_atCheck {D : Nat} {L : Int} {n T : Nat} (h : T ∈ atCheck D L n) :
    T % D = 0 ∧ T ≤ n ∧ (L < 0 ∨ (n : Int) ≤ (T : Int) + L) := by
  unfold atCheck held at h
  simp only [List.mem_filter, List.mem_range, Bool.and_eq_true, Bool.or_eq_true,
    decide_eq_true_eq] at h
  omega

theorem atCheck_of_mem {D : Nat} {L : Int} {n T : Nat} (h1 : T % D = 0) (h2 : T ≤ n)
    (h3 : L < 0 ∨ (n : Int) ≤ (T : Int) + L) : T ∈ atCheck D L n := by
  unfold atCheck held
  simp only [List.mem_filter, List.mem_range, Bool.and_eq_true, Bool.or_eq_true,
    decide_eq_true_eq]
  omega

theorem mem_inflight {D : Nat} {L : Int} {n T : Nat} (h : T ∈ inflight D L n) :
    T % D = 0 ∧ T < n ∧ (L < 0 ∨ (n : Int) ≤ (T : Int) + L) := by
  unfold inflight held at h
  simp only [List.mem_filter, List.mem_range, Bool.and_eq_true, Bool.or_eq_true,
    decide_eq_true_eq] at h
  omega

theorem atCheck_sorted (D : Nat) (L : Int) (n : Nat) : (atCheck D L n).Pairwise (· < ·) :=
  (List.pairwise_lt_range (n + 1)).filter _

theorem inflight_sorted (D : Nat) (L : Int) (n : Nat) : (inflight D L n).Pairwise (· < ·) :=
  (List.pairwise_lt_range n).filter _

theorem inflight_succ (D : Nat) (L : Int) (n : Nat) :
    inflight D L (n + 1)
      = (atCheck D L n).filter (fun T : Nat => decide ((n : Int) ≠ (T : Int) + L)) := by
  unfold inflight atCheck
  rw [List.filter_filter]
  apply List.filter_congr
  intro T hT
  have hT2 : T < n + 1 := List.mem_range.mp hT
  rw [Bool.eq_iff_iff]
  simp only [held, Bool.and_eq_true, Bool.or_eq_true, decide_eq_true_eq]
  push_cast
  omega

/-- The release check of call `n` sees an empty queue: nothing is due. -/
theorem atCheck_nil {D : Nat} {L : Int} {n : Nat} (h : atCheck D L n = []) :
    inflight D L (n + 1) = [] ∧ ¬ (0 ≤ L ∧ L ≤ (n : Int) ∧ (n - L.toNat) % D = 0) := by
  refine ⟨by rw [inflight_succ, h]; rfl, ?_⟩
  rintro ⟨h0, h1, h2⟩
  have : n - L.toNat ∈ atCheck D L n := atCheck_of_mem h2 (by omega) (by omega)
  rw [h] at this
  exact absurd this (List.not_mem_nil _)

/-- The front is due at call `n`: it is the sample of tick `n - L`, and the rest
of the queue is what is held afterwards. -/
theorem atCheck_due {D : Nat} {L : Int} {n T0 : Nat} {rest : List Nat}
    (h : atCheck D L n = T0 :: rest) (hd : (n : Int) = (T0 : Int) + L) :
    inflight D L (n + 1) = rest ∧ (0 ≤ L ∧ L ≤ (n : Int) ∧ (n - L.toNat) % D = 0) ∧
      T0 = n - L.toNat := by
  have hm := mem_atCheck (h ▸ List.mem_cons_self T0 rest : T0 ∈ atCheck D L n)
  have hs := atCheck_sorted D L n
  rw [h] at hs
  have hlt := (List.pairwise_cons.mp hs).1
  have hT0 : T0 = n - L.toNat := by omega
  refine ⟨?_, ⟨by omega, by omega, ?_⟩, hT0⟩
  · rw [inflight_succ, h, List.filter_cons]
    have : decide ((n : Int) ≠ (T0 : Int) + L) = false := by simp; omega
    rw [this]
    simp only [Bool.false_eq_true, if_false]
    rw [List.filter_eq_self]
    intro a ha
    have := hlt a ha
    simp only [decide_eq_true_eq]
    omega
  · rw [← hT0]; exact hm.1

/-- The front is not due at call `n`: nothing is due, the queue stays. -/
theorem atCheck_not_due {D : Nat} {L : Int} {n T0 : Nat} {rest : List Nat}
    (h : atCheck D L n = T0 :: rest) (hd : (n : Int) ≠ (T0 : Int) + L) :
    inflight D L (n + 1) = T0 :: rest ∧
      ¬ (0 ≤ L ∧ L ≤ (n : Int) ∧ (n - L.toNat) % D = 0) := by
  have hmem : ∀ a ∈ T0 :: rest, a % D = 0 ∧ a ≤ n ∧ (L < 0 ∨ (n : Int) ≤ (a : Int) + L) :=
    fun a ha => mem_atCheck (h ▸ ha)
  have hm := hmem T0 (List.mem_cons_self _ _)
  have hs := atCheck_sorted D L n
  rw [h] at hs
  have hlt := (List.pairwise_cons.mp hs).1
  constructor
  · rw [inflight_succ, h, List.filter_eq_self]
    intro a ha
    simp only [decide_eq_true_eq]
    rcases List.mem_cons.mp ha with rfl | ha'
    · exact hd
    · have := hlt a ha'
      have := hmem a ha
      omega
  · rintro ⟨h0, h1, h2⟩
    have hin : n - L.toNat ∈ atCheck D L n := atCheck_of_mem h2 (by omega) (by omega)
    rw [h] at hin
    rcases List.mem_cons.mp hin with h3 | h3
    · omega
    · have := hlt _ h3
      omega

/-! ## One call of OnUpdate in a run -/

theorem SameSetup.refl {K G : Type} (a : GazeboForceSensorPlugin K G) : SameSetup a a :=
  ⟨rfl, rfl, rfl, rfl, rfl, rfl, rfl, rfl, rfl, rfl, rfl, rfl, rfl⟩

theorem applicationPoint_ok {K G P : Type} [Sub P] [Zero P] (s : GazeboForceSensorPlugin K G)
    (w : World K P) (hl : s.link_ ≠ none) (hp : s.parent_link_ ≠ none)
    (hr : s.reference_frame_id_ ≠ kDefaultReferenceFrameId →
      s.reference_frame_id_ ≠ s.parent_frame_id_ → s.reference_link_ ≠ none) :
    ∃ poses, applicationPoint s w = .ok poses := by
  obtain ⟨l, hl⟩ := Option.ne_none_iff_exists'.mp hl
  obtain ⟨pl, hp⟩ := Option.ne_none_iff_exists'.mp hp
  by_cases h2 : s.reference_frame_id_ ≠ kDefaultReferenceFrameId ∧
      s.reference_frame_id_ ≠ s.parent_frame_id_
  · obtain ⟨rl, hrl⟩ := Option.ne_none_iff_exists'.mp (hr h2.1 h2.2)
    simp only [applicationPoint, hl, hp, hrl, deref, bind, Except.bind, pure, Except.pure]
    split_ifs <;> exact ⟨_, rfl⟩
  · simp only [applicationPoint, hl, hp, deref, bind, Except.bind, pure, Except.pure]
    split_ifs <;> exact ⟨_, rfl⟩

theorem forceParsing_ok {K G P : Type} (s : GazeboForceSensorPlugin K G) (w : World K P)
    (pl : LinkPtr) (hp : s.parent_link_ = some pl) :
    forceParsing s w = .ok ((w.link pl).GetRelativeForce, (w.link pl).GetRelativeTorque) := by
  simp only [forceParsing, hp, deref, bind, Except.bind, pure, Except.pure]

theorem sampleStep_spec {K G P : Type} (lib : Library K G) (start s : GazeboForceSensorPlugin K G)
    (worlds : Nat → World K P) (pl : LinkPtr) (D : Nat) (L : Int) (n : Nat)
    (hr : Ready start D L) (hn : InRange L n) (hs : AfterTicks lib start worlds pl D L n s) :
    ∃ s1 e, sampleStep lib s (worlds n).GetSimTime ((worlds n).link pl).GetRelativeForce
          ((worlds n).link pl).GetRelativeTorque = .ok (s1, e) ∧
      e = (if n % D = 0 then some (entryAt lib start worlds pl D L n) else none) ∧
      SameSetup start s1 ∧ s1.gazebo_sequence_ = (n : Int) ∧
      s1.wrench_sequence_
        = wrapInt (start.wrench_sequence_ + (samplesBefore D (n + 1) : Nat)) ∧
      s1.wrench_queue_ = (atCheck D L n).map (entryAt lib start worlds pl D L) := by
  have hD : s.measurement_divisor_ = (D : Int) := hs.setup.measurement_divisor_.trans hr.divisor
  have hL : s.measurement_delay_ = L := hs.setup.measurement_delay_.trans hr.delay
  have hD0 : (D : Int) ≠ 0 := by have := hr.pos; omega
  have hmod : Int.tmod (n : Int) (D : Int) = ((n % D : Nat) : Int) := (Int.ofNat_tmod n D).symm
  have hseq : s.gazebo_sequence_ = (n : Int) := by
    rw [hs.seq]
    exact wrapInt_of_int (by omega) hn.1
  have hkey : wrapInt ((n : Int) + L) = (n : Int) + L :=
    wrapInt_of_int (by have := hr.delay_int; omega) hn.2
  have c1 : ¬ s.measurement_divisor_ = 0 := by rw [hD]; exact hD0
  have c0 : ¬ (s.gazebo_sequence_ = -2147483648 ∧ s.measurement_divisor_ = -1) := by
    rw [hD]
    have := hr.pos
    omega
  unfold sampleStep
  rw [if_neg c1, if_neg c0]
  by_cases h : n % D = 0
  · have c2 : Int.tmod s.gazebo_sequence_ s.measurement_divisor_ = 0 := by
      rw [hseq, hD, hmod, h]; rfl
    rw [if_pos c2]
    have hentry : (wrapInt (s.gazebo_sequence_ + s.measurement_delay_),
        ({ header :=
            { frame_id := s.parent_frame_id_
              seq := wrapUInt32 s.wrench_sequence_
              stamp :=
                { sec := wrapUInt32
                    ((worlds n).GetSimTime.sec + (lib.Duration s.unknown_delay_).sec)
                  nsec := wrapUInt32
                    ((worlds n).GetSimTime.nsec + (lib.Duration s.unknown_delay_).nsec) } }
           wrench :=
            { force := ⟨((worlds n).link pl).GetRelativeForce.x,
                ((worlds n).link pl).GetRelativeForce.y, ((worlds n).link pl).GetRelativeForce.z⟩
              torque := ⟨((worlds n).link pl).GetRelativeTorque.x,
                ((worlds n).link pl).GetRelativeTorque.y,
                ((worlds n).link pl).GetRelativeTorque.z⟩ } } : WrenchStamped K))
        = entryAt lib start worlds pl D L n := by
      simp only [entryAt, hseq, hL, hkey, hs.setup.parent_frame_id_, hs.count,
        hs.setup.unknown_delay_, wrapUInt32_wrapInt]
    refine ⟨_, _, rfl, ?_, ⟨hs.setup.1, hs.setup.2, hs.setup.3, hs.setup.4, hs.setup.5,
      hs.setup.6, hs.setup.7, hs.setup.8, hs.setup.9, hs.setup.10, hs.setup.11, hs.setup.12,
      hs.setup.13⟩, hseq, ?_, ?_⟩
    · rw [if_pos h, hentry]
    · show wrapInt (s.wrench_sequence_ + 1) = _
      rw [hs.count, wrapInt_add]
      simp only [samplesBefore, h, if_true]
      push_cast
      rw [Int.add_assoc]
    · show s.wrench_queue_ ++ [_] = _
      rw [hentry]
      simp only [atCheck_eq, h, if_true, List.map_append, List.map_cons, List.map_nil,
        hs.queue]
  · have c2 : ¬ Int.tmod s.gazebo_sequence_ s.measurement_divisor_ = 0 := by
      rw [hseq, hD, hmod]; exact_mod_cast h
    rw [if_neg c2]
    refine ⟨_, _, rfl, ?_, hs.setup, hseq, ?_, ?_⟩
    · rw [if_neg h]
    · simp only [samplesBefore, h, if_false, hs.count, Nat.add_zero]
    · simp only [atCheck_eq, h, if_false, List.append_nil, hs.queue]

theorem releaseStep_spec {K G P : Type} [Add K] (lib : Library K G)
    (start s1 : GazeboForceSensorPlugin K G) (worlds : Nat → World K P) (w : World K P)
    (poses : FramePoses P) (pl : LinkPtr) (D : Nat) (L : Int) (n : Nat)
    (hsetup : SameSetup start s1) (hseq : s1.gazebo_sequence_ = (n : Int))
    (hq : s1.wrench_queue_ = (atCheck D L n).map (entryAt lib start worlds pl D L)) :
    SameSetup start (releaseStep lib s1 w poses).1 ∧
    (releaseStep lib s1 w poses).1.gazebo_sequence_ = (n : Int) ∧
    (releaseStep lib s1 w poses).1.wrench_sequence_ = s1.wrench_sequence_ ∧
    (releaseStep lib s1 w poses).1.wrench_queue_
      = (inflight D L (n + 1)).map (entryAt lib start worlds pl D L) ∧
    (releaseStep lib s1 w poses).2.1 = (atCheck D L n).isEmpty ∧
    (releaseStep lib s1 w poses).2.2.map Release.popped
      = (if 0 ≤ L ∧ L ≤ (n : Int) ∧ (n - L.toNat) % D = 0 then
          some (entryAt lib start worlds pl D L (n - L.toNat))
         else none) ∧
    ∀ r, (releaseStep lib s1 w poses).2.2 = some r → r.true_forces = r.popped.2 := by
  unfold releaseStep
  cases hc : atCheck D L n with
  | nil =>
    rw [hc] at hq
    obtain ⟨h1, h2⟩ := atCheck_nil hc
    rw [hq, h1, if_neg h2]
    exact ⟨hsetup, hseq, rfl, hq, rfl, rfl, fun r hr => by cases hr⟩
  | cons T0 rest =>
    rw [hc] at hq
    rw [hq]
    simp only [List.map_cons]
    by_cases hd : (n : Int) = (T0 : Int) + L
    · have c : s1.gazebo_sequence_ = (entryAt lib start worlds pl D L T0).1 := by
        rw [hseq, hd]; rfl
      obtain ⟨h1, h2, h3⟩ := atCheck_due hc hd
      rw [if_pos c, h1, if_pos h2, ← h3]
      refine ⟨⟨hsetup.1, hsetup.2, hsetup.3, hsetup.4, hsetup.5, hsetup.6, hsetup.7, hsetup.8,
        hsetup.9, hsetup.10, hsetup.11, hsetup.12, hsetup.13⟩, hseq, rfl, rfl, rfl, rfl, ?_⟩
      intro r hr
      cases hr
      rfl
    · have c : ¬ s1.gazebo_sequence_ = (entryAt lib start worlds pl D L T0).1 := by
        rw [hseq]
        exact hd
      obtain ⟨h1, h2⟩ := atCheck_not_due hc hd
      rw [if_neg c, h1, if_neg h2]
      exact ⟨hsetup, hseq, rfl, hq, rfl, rfl, fun r hr => by cases hr⟩

/-- One call of `OnUpdate` in a run, at a tick within `int`: it returns, the
object it leaves is the one described for `n + 1` calls, and what it did is
described by `TickSpec`. -/
theorem OnUpdate_step {K G P : Type} [Add K] [Sub P] [Zero P] (lib : Library K G)
    (start s : GazeboForceSensorPlugin K G) (worlds : Nat → World K P) (pl : LinkPtr)
    (D : Nat) (L : Int) (n : Nat) (hr : Ready start D L) (hn : InRange L n)
    (hpl : start.parent_link_ = some pl) (hs : AfterTicks lib start worlds pl D L n s) :
    ∃ s2 out, OnUpdate lib s (worlds n) = .ok (s2, out) ∧
      AfterTicks lib start worlds pl D L (n + 1) s2 ∧ TickSpec lib start worlds pl D L n out := by
  have hl : s.link_ ≠ none := by rw [hs.setup.link_]; exact hr.link
  have hp : s.parent_link_ = some pl := by rw [hs.setup.parent_link_]; exact hpl
  have hp0 : s.parent_link_ ≠ none := by rw [hp]; exact Option.some_ne_none _
  have href : s.reference_frame_id_ ≠ kDefaultReferenceFrameId →
      s.reference_frame_id_ ≠ s.parent_frame_id_ → s.reference_link_ ≠ none := by
    rw [hs.setup.reference_frame_id_, hs.setup.parent_frame_id_, hs.setup.reference_link_]
    exact hr.reference
  obtain ⟨poses, hposes⟩ := applicationPoint_ok s (worlds n) hl hp0 href
  obtain ⟨s1, e, hsample, he, hset1, hseq1, hcount1, hq1⟩ :=
    sampleStep_spec lib start s worlds pl D L n hr hn hs
  obtain ⟨r1, r2, r3, r4, r5, r6, r7⟩ :=
    releaseStep_spec lib start s1 worlds (worlds n) poses pl D L n hset1 hseq1 hq1
  refine ⟨{ (releaseStep lib s1 (worlds n) poses).1 with
      gazebo_sequence_ := wrapInt ((releaseStep lib s1 (worlds n) poses).1.gazebo_sequence_ + 1) },
    { pushed := e
      front_on_empty := (releaseStep lib s1 (worlds n) poses).2.1
      release := (releaseStep lib s1 (worlds n) poses).2.2 }, ?_, ?_, ?_⟩
  · simp only [OnUpdate, hposes, forceParsing_ok s (worlds n) pl hp, hsample, bind,
      Except.bind, pure, Except.pure]
  · refine ⟨⟨r1.1, r1.2, r1.3, r1.4, r1.5, r1.6, r1.7, r1.8, r1.9, r1.10, r1.11, r1.12,
      r1.13⟩, ?_, ?_, ?_⟩
    · show wrapInt ((releaseStep lib s1 (worlds n) poses).1.gazebo_sequence_ + 1)
        = wrapInt ((n + 1 : Nat) : Int)
      rw [r2]; push_cast; rfl
    · show (releaseStep lib s1 (worlds n) poses).1.wrench_sequence_ = _
      rw [r3, hcount1]
    · exact r4
  · exact ⟨he, r5, r6, r7⟩

/-- The run returns after `n` calls when every call before stays within `int`,
with the object described by `AfterTicks`. -/
theorem stateAfter_spec {K G P : Type} [Add K] [Sub P] [Zero P] (lib : Library K G)
    (start : GazeboForceSensorPlugin K G) (worlds : Nat → World K P) (pl : LinkPtr)
    (D : Nat) (L : Int) (hr : Ready start D L) (hpl : start.parent_link_ = some pl) (n : Nat)
    (hn : InRangeBefore L n) :
    ∃ s, stateAfter lib start worlds n = .ok s ∧ AfterTicks lib start worlds pl D L n s := by
  induction n with
  | zero =>
    refine ⟨start, rfl, SameSetup.refl start, ?_, ?_, ?_⟩
    · rw [hr.seq]; rfl
    · show start.wrench_sequence_ = wrapInt (start.wrench_sequence_ + ((0 : Nat) : Int))
      rw [Int.natCast_zero, Int.add_zero]
      exact (wrapInt_of_int hr.count_int.1 hr.count_int.2).symm
    · rw [hr.queue]; rfl
  | succ n ih =>
    have hn1 : InRange L n := by
      unfold InRangeBefore at hn
      unfold InRange
      omega
    obtain ⟨s, hs, hinv⟩ := ih hn1.before
    obtain ⟨s2, out, hstep, hinv2, _⟩ :=
      OnUpdate_step lib start s worlds pl D L n hr hn1 hpl hinv
    exact ⟨s2, by simp only [stateAfter, hs, hstep, bind, Except.bind, pure, Except.pure], hinv2⟩

/-- A call at a tick within `int` returns, and what it did is described by
`TickSpec`. -/
theorem tickOutput_spec {K G P : Type} [Add K] [Sub P] [Zero P] (lib : Library K G)
    (start : GazeboForceSensorPlugin K G) (worlds : Nat → World K P) (pl : LinkPtr)
    (D : Nat) (L : Int) (hr : Ready start D L) (hpl : start.parent_link_ = some pl) (n : Nat)
    (hn : InRange L n) :
    ∃ out, tickOutput lib start worlds n = .ok out ∧ TickSpec lib start worlds pl D L n out := by
  obtain ⟨s, hs, hinv⟩ := stateAfter_spec lib start worlds pl D L hr hpl n hn.before
  obtain ⟨s2, out, hstep, _, hspec⟩ := OnUpdate_step lib start s worlds pl D L n hr hn hpl hinv
  exact ⟨out, by simp only [tickOutput, hs, hstep, bind, Except.bind, pure, Except.pure], hspec⟩

/-! ## Pose algebra -/

theorem Quaternion.mul_assoc {K : Type} [CommRing K] (a b c : Quaternion K) :
    (a.mul b).mul c = a.mul (b.mul c) := by
  simp only [Quaternion.mul, Quaternion.mk.injEq]
  refine ⟨by ring, by ring, by ring, by ring⟩

theorem Quaternion.rotate_mul {K : Type} [CommRing K] (a b : Quaternion K) (v : Vector3 K) :
    (a.mul b).rotate v = a.rotate (b.rotate v) := by
  simp only [Quaternion.rotate, Quaternion.mul, Quaternion.conj, Quaternion.ofVector,
    Quaternion.vec, Vector3.mk.injEq]
  refine ⟨by ring, by ring, by ring⟩

theorem Quaternion.rotate_add {K : Type} [CommRing K] (q : Quaternion K) (u v : Vector3 K) :
    q.rotate (u.add v) = (q.rotate u).add (q.rotate v) := by
  simp only [Quaternion.rotate, Quaternion.mul, Quaternion.conj, Quaternion.ofVector,
    Quaternion.vec, Vector3.add, Vector3.mk.injEq]
  refine ⟨by ring, by ring, by ring⟩

theorem Pose.compose_assoc {K : Type} [CommRing K] (a b c : Pose K) :
    Pose.compose (Pose.compose a b) c = Pose.compose a (Pose.compose b c) := by
  simp only [Pose.compose, Quaternion.rotate_mul, Quaternion.rotate_add, Quaternion.mul_assoc,
    Pose.mk.injEq, and_true]
  simp only [Vector3.add, Vector3.mk.injEq]
  refine ⟨by ring, by ring, by ring⟩

theorem Pose.compose_inverse {K : Type} [CommRing K] (b : Pose K) (hb : b.Unit) :
    Pose.compose b (Pose.inverse b) = Pose.Zero := by
  have h : b.rot.w * b.rot.w + b.rot.x * b.rot.x + b.rot.y * b.rot.y + b.rot.z * b.rot.z = 1 := hb
  simp only [Pose.compose, Pose.inverse, Pose.Zero, Quaternion.identity, Quaternion.rotate,
    Quaternion.mul, Quaternion.conj, Quaternion.ofVector, Quaternion.vec, Vector3.add,
    Vector3.neg, Pose.mk.injEq, Vector3.mk.injEq, Quaternion.mk.injEq]
  refine ⟨⟨?_, ?_, ?_⟩, ?_, ?_, ?_, ?_⟩
  · linear_combination (-(b.pos.x) * (b.rot.w * b.rot.w + b.rot.x * b.rot.x
      + b.rot.y * b.rot.y + b.rot.z * b.rot.z + 1)) * h
  · linear_combination (-(b.pos.y) * (b.rot.w * b.rot.w + b.rot.x * b.rot.x
      + b.rot.y * b.rot.y + b.rot.z * b.rot.z + 1)) * h
  · linear_combination (-(b.pos.z) * (b.rot.w * b.rot.w + b.rot.x * b.rot.x
      + b.rot.y * b.rot.y + b.rot.z * b.rot.z + 1)) * h
  · linear_combination h
  · ring
  · ring
  · ring

theorem Pose.zero_compose {K : Type} [CommRing K] (a : Pose K) :
    Pose.compose Pose.Zero a = a := by
  cases a with
  | mk pos rot =>
    cases pos; cases rot
    simp only [Pose.compose, Pose.Zero, Quaternion.identity, Quaternion.rotate,
      Quaternion.mul, Quaternion.conj, Quaternion.ofVector, Quaternion.vec, Vector3.add,
      Pose.mk.injEq, Vector3.mk.injEq, Quaternion.mk.injEq]
    refine ⟨⟨by ring, by ring, by ring⟩, by ring, by ring, by ring, by ring⟩

/-- Putting back what a subtraction took away: `b` composed with `a - b` is `a`. -/
theorem Pose.compose_sub {K : Type} [CommRing K] (a b : Pose K) (hb : b.Unit) :
    Pose.compose b (a - b) = a := by
  show Pose.compose b (Pose.compose (Pose.inverse b) a) = a
  rw [← Pose.compose_assoc, Pose.compose_inverse b hb, Pose.zero_compose]

/-- The three segments of the frame chain compose to the world pose of the
sensor. -/
theorem Pose.chain {K : Type} [CommRing K] (c p r : Pose K) (hp : p.Unit) (hr : r.Unit) :
    Pose.compose r (Pose.compose (p - r) (c - p)) = c := by
  rw [← Pose.compose_assoc, Pose.compose_sub p r hr, Pose.compose_sub c p hp]

/-! ## The delay queue -/

theorem entryAt_key {K G P : Type} (lib : Library K G) (start : GazeboForceSensorPlugin K G)
    (worlds : Nat → World K P) (pl : LinkPtr) (D : Nat) (L : Int) (T : Nat) :
    (entryAt lib start worlds pl D L T).1 = (T : Int) + L := rfl

theorem entryAt_inj {K G P : Type} (lib : Library K G) (start : GazeboForceSensorPlugin K G)
    (worlds : Nat → World K P) (pl : LinkPtr) (D : Nat) (L : Int) (T1 T2 : Nat)
    (h : entryAt lib start worlds pl D L T1 = entryAt lib start worlds pl D L T2) : T1 = T2 := by
  have h1 := congrArg Prod.fst h
  rw [entryAt_key, entryAt_key] at h1
  omega

/-- A push at call `n` happens at a sampling tick and pushes the element of
tick `n`. -/
theorem TickSpec.pushed_eq {K G P : Type} {lib : Library K G}
    {start : GazeboForceSensorPlugin K G} {worlds : Nat → World K P} {pl : LinkPtr}
    {D : Nat} {L : Int} {n : Nat} {out : TickOutput K P}
    (h : TickSpec lib start worlds pl D L n out)
    {e : Int × WrenchStamped K} (he : out.pushed = some e) :
    n % D = 0 ∧ e = entryAt lib start worlds pl D L n := by
  have hp := h.pushed
  rw [he] at hp
  by_cases c : n % D = 0
  · rw [if_pos c] at hp
    exact ⟨c, Option.some.inj hp⟩
  · rw [if_neg c] at hp
    cases hp

/-- A release at call `n` removes the element of the sample of tick `n - L`. -/
theorem TickSpec.release_eq {K G P : Type} {lib : Library K G}
    {start : GazeboForceSensorPlugin K G} {worlds : Nat → World K P} {pl : LinkPtr}
    {D : Nat} {L : Int} {n : Nat} {out : TickOutput K P}
    (h : TickSpec lib start worlds pl D L n out)
    {r : Release K P} (hr : out.release = some r) :
    (0 ≤ L ∧ L ≤ (n : Int) ∧ (n - L.toNat) % D = 0) ∧
      r.popped = entryAt lib start worlds pl D L (n - L.toNat) := by
  have hp := h.popped
  rw [hr] at hp
  by_cases c : 0 ≤ L ∧ L ≤ (n : Int) ∧ (n - L.toNat) % D = 0
  · rw [if_pos c] at hp
    exact ⟨c, Option.some.inj hp⟩
  · rw [if_neg c] at hp
    cases hp

/-- When the sample of tick `n - L` is due at call `n`, call `n` releases it. -/
theorem TickSpec.release_of_due {K G P : Type} {lib : Library K G}
    {start : GazeboForceSensorPlugin K G} {worlds : Nat → World K P} {pl : LinkPtr}
    {D : Nat} {L : Int} {n : Nat} {out : TickOutput K P}
    (h : TickSpec lib start worlds pl D L n out)
    (c : 0 ≤ L ∧ L ≤ (n : Int) ∧ (n - L.toNat) % D = 0) :
    ∃ r, out.release = some r ∧ r.popped = entryAt lib start worlds pl D L (n - L.toNat) := by
  have hp := h.popped
  rw [if_pos c] at hp
  cases hrel : out.release with
  | none => rw [hrel] at hp; cases hp
  | some r =>
    rw [hrel] at hp
    exact ⟨r, rfl, Option.some.inj hp⟩

theorem Defined.calls_in_range {K G P : Type} [Add K] [Sub P] [Zero P] {lib : Library K G}
    {start : GazeboForceSensorPlugin K G} {worlds : Nat → World K P} {D : Nat} {L : Int}
    {n : Nat} (hr : Ready start D L) (h : Defined lib start worlds L n) :
    InRangeBefore L n := by
  cases n with
  | zero =>
    have := hr.delay_int
    unfold InRangeBefore
    omega
  | succ m => exact (h m (Nat.lt_succ_self m)).1.before_succ

/-- Claim C6, as the code has it. In a run of `OnUpdate` from tick 0 with divisor
`D ≥ 1`, any delay `L` and an empty queue, as long as the calls made stay within
`int` and read no empty queue (`Defined`): the release ticks stored in
`wrench_queue_` are strictly increasing from front to back; and of two elements
pushed at ticks `T1 < T2`, when the second is released the first has been
released at or before that tick. -/
theorem queue_order {K G P : Type} [Add K] [Sub P] [Zero P] (lib : Library K G)
    (start : GazeboForceSensorPlugin K G) (worlds : Nat → World K P) (D : Nat) (L : Int)
    (hr : Ready start D L) :
    (∀ n, Defined lib start worlds L n → ∃ s, stateAfter lib start worlds n = .ok s ∧
      (s.wrench_queue_.map Prod.fst).Pairwise (· < ·)) ∧
    (∀ N T1 T2 t2 o1 o2 p2 e1 e2 r2, Defined lib start worlds L N →
      T1 < T2 → T2 < N → t2 < N →
      tickOutput lib start worlds T1 = .ok o1 → o1.pushed = some e1 →
      tickOutput lib start worlds T2 = .ok o2 → o2.pushed = some e2 →
      tickOutput lib start worlds t2 = .ok p2 → p2.release = some r2 → r2.popped = e2 →
      ∃ t1 p1 r1, t1 ≤ t2 ∧ tickOutput lib start worlds t1 = .ok p1 ∧
        p1.release = some r1 ∧ r1.popped = e1) := by
  obtain ⟨pl, hpl⟩ := Option.ne_none_iff_exists'.mp hr.parent
  constructor
  · intro n hdef
    obtain ⟨s, hs, hinv⟩ := stateAfter_spec lib start worlds pl D L hr hpl n (hdef.calls_in_range hr)
    refine ⟨s, hs, ?_⟩
    rw [hinv.queue, List.map_map]
    refine List.Pairwise.map _ ?_ (inflight_sorted D L n)
    intro a b hab
    show (a : Int) + L < (b : Int) + L
    omega
  · intro N T1 T2 t2 o1 o2 p2 e1 e2 r2 hdef hlt hT2 ht2 ho1 he1 ho2 he2 hp2 hr2 hpop2
    have spec : ∀ m o, m < N → tickOutput lib start worlds m = .ok o →
        TickSpec lib start worlds pl D L m o := by
      intro m o hm ho
      obtain ⟨o', ho', hspec⟩ := tickOutput_spec lib start worlds pl D L hr hpl m (hdef m hm).1
      rw [ho] at ho'
      cases ho'
      exact hspec
    obtain ⟨c1, h1⟩ := (spec T1 o1 (by omega) ho1).pushed_eq he1
    obtain ⟨_, h2⟩ := (spec T2 o2 hT2 ho2).pushed_eq he2
    obtain ⟨c, h3⟩ := (spec t2 p2 ht2 hp2).release_eq hr2
    rw [hpop2, h2] at h3
    have hT2eq := entryAt_inj lib start worlds pl D L _ _ h3
    have ht1 : T1 + L.toNat < N := by omega
    obtain ⟨p1, hp1, hspec1⟩ :=
      tickOutput_spec lib start worlds pl D L hr hpl (T1 + L.toNat) (hdef _ ht1).1
    obtain ⟨r1, hr1, hpop1⟩ := hspec1.release_of_due
      ⟨c.1, by push_cast; omega, by rw [Nat.add_sub_cancel]; exact c1⟩
    rw [Nat.add_sub_cancel] at hpop1
    exact ⟨T1 + L.toNat, p1, r1, by omega, hp1, hr1, by rw [h1]; exact hpop1⟩

/-- Claim C6, as the code has it, at two instances. Divisor 1 and delay 2: the
first five calls are defined, the queue after them holds two elements in
increasing order, and the element pushed at tick 0 has left by tick 3, when the
element pushed at tick 1 leaves. Divisor 1 and delay -1: the first three calls
are defined and the queue after them is in increasing order. -/
theorem queue_order_witness :
    (Ready (exampleLoaded (some "arm") none 2 1) 1 2 ∧
      Defined exampleLibrary (exampleLoaded (some "arm") none 2 1) exampleWorld 2 5 ∧
      (∃ s, stateAfter exampleLibrary (exampleLoaded (some "arm") none 2 1) exampleWorld 5
          = .ok s ∧ (s.wrench_queue_.map Prod.fst).Pairwise (· < ·)) ∧
      ∃ o1 e1 t1 p1 r1,
        tickOutput exampleLibrary (exampleLoaded (some "arm") none 2 1) exampleWorld 0 = .ok o1 ∧
        o1.pushed = some e1 ∧ t1 ≤ 3 ∧
        tickOutput exampleLibrary (exampleLoaded (some "arm") none 2 1) exampleWorld t1
          = .ok p1 ∧
        p1.release = some r1 ∧ r1.popped = e1) ∧
    (Ready (exampleLoaded (some "arm") none (-1) 1) 1 (-1) ∧
      Defined exampleLibrary (exampleLoaded (some "arm") none (-1) 1) exampleWorld (-1) 3 ∧
      ∃ s, stateAfter exampleLibrary (exampleLoaded (some "arm") none (-1) 1) exampleWorld 3
          = .ok s ∧ (s.wrench_queue_.map Prod.fst).Pairwise (· < ·)) := by
  have hr1 : Ready (exampleLoaded (some "arm") none 2 1) 1 2 :=
    ⟨rfl, rfl, by decide, by decide, by decide, rfl, by decide, rfl, by decide, by decide,
      by decide⟩
  have hd1 : Defined exampleLibrary (exampleLoaded (some "arm") none 2 1) exampleWorld 2 5 := by
    intro m hm
    interval_cases m <;> exact ⟨by unfold InRange; decide, _, rfl, rfl⟩
  have hr2 : Ready (exampleLoaded (some "arm") none (-1) 1) 1 (-1) :=
    ⟨rfl, rfl, by decide, by decide, by decide, rfl, by decide, rfl, by decide, by decide,
      by decide⟩
  have hd2 : Defined exampleLibrary (exampleLoaded (some "arm") none (-1) 1) exampleWorld
      (-1) 3 := by
    intro m hm
    interval_cases m <;> exact ⟨by unfold InRange; decide, _, rfl, rfl⟩
  refine ⟨⟨hr1, hd1, (queue_order exampleLibrary _ exampleWorld 1 2 hr1).1 5 hd1, ?_⟩,
    hr2, hd2, (queue_order exampleLibrary _ exampleWorld 1 (-1) hr2).1 3 hd2⟩
  obtain ⟨t1, p1, r1, h1, h2, h3, h4⟩ :=
    (queue_order exampleLibrary (exampleLoaded (some "arm") none 2 1) exampleWorld 1 2 hr1).2
      5 0 1 3 _ _ _ _ _ _ hd1 (by decide) (by decide) (by decide) rfl rfl rfl rfl rfl rfl rfl
  exact ⟨_, _, t1, p1, r1, rfl, rfl, h1, h2, h3, h4⟩

/-- Claim C6 as stated fails: with divisor 1 and delay 2147483647 the release
tick computed at tick 1 leaves the range of `int`, and after two calls the
queue holds the release ticks 2147483647 and -2147483648 in this order. -/
theorem queue_order_counterexample :
    Ready (exampleLoaded (some "arm") none 2147483647 1) 1 2147483647 ∧
    ∃ s, stateAfter exampleLibrary (exampleLoaded (some "arm") none 2147483647 1) exampleWorld 2
        = .ok s ∧
      s.wrench_queue_.map Prod.fst = [2147483647, -2147483648] ∧
      ¬ (s.wrench_queue_.map Prod.fst).Pairwise (· < ·) :=
  ⟨⟨rfl, rfl, by decide, by decide, by decide, rfl, by decide, rfl, by decide, by decide,
      by decide⟩,
    _, rfl, rfl, by decide⟩

/-- Among `L` consecutive ticks at most `⌈L / D⌉` are multiples of `D`. -/
theorem inflight_length_le (D L n : Nat) (hD : 1 ≤ D) :
    (inflight D (L : Int) (n + 1)).length ≤ (L + D - 1) / D := by
  have hmem : ∀ T ∈ inflight D (L : Int) (n + 1), T % D = 0 ∧ T ≤ n ∧ n + 1 ≤ T + L := by
    intro T hT
    have := mem_inflight hT
    omega
  have hnodup : (inflight D (L : Int) (n + 1)).Nodup :=
    (inflight_sorted D (L : Int) (n + 1)).imp (fun h => Nat.ne_of_lt h)
  have step : ∀ a b, a ∈ inflight D (L : Int) (n + 1) → b ∈ inflight D (L : Int) (n + 1) →
      a < b → (n - b) / D < (n - a) / D := by
    intro a b ha hb hab
    obtain ⟨ha1, ha2, _⟩ := hmem a ha
    obtain ⟨hb1, hb2, _⟩ := hmem b hb
    obtain ⟨x, rfl⟩ := Nat.dvd_of_mod_eq_zero ha1
    obtain ⟨y, rfl⟩ := Nat.dvd_of_mod_eq_zero hb1
    have hxy : x < y := by
      by_contra hc
      have : D * y ≤ D * x := Nat.mul_le_mul_left D (Nat.le_of_not_lt hc)
      omega
    have hle : D * x + D ≤ D * y := by
      have : D * (x + 1) ≤ D * y := Nat.mul_le_mul_left D hxy
      rw [Nat.mul_add, Nat.mul_one] at this
      exact this
    have h1 : (n - D * y + D) / D = (n - D * y) / D + 1 := Nat.add_div_right _ (by omega)
    have h2 : (n - D * y + D) / D ≤ (n - D * x) / D := Nat.div_le_div_right (by omega)
    omega
  have hinj : Set.InjOn (fun T => (n - T) / D) {T | T ∈ inflight D (L : Int) (n + 1)} := by
    intro a ha b hb hab
    simp only [Set.mem_setOf_eq] at ha hb
    rcases Nat.lt_trichotomy a b with h | h | h
    · have := step a b ha hb h
      simp only at hab
      omega
    · exact h
    · have := step b a hb ha h
      simp only at hab
      omega
  have hnodup2 : ((inflight D (L : Int) (n + 1)).map (fun T => (n - T) / D)).Nodup :=
    List.Nodup.map_on (fun a ha b hb hab => hinj ha hb hab) hnodup
  have hsub : ((inflight D (L : Int) (n + 1)).map (fun T => (n - T) / D)).toFinset
      ⊆ Finset.range ((L + D - 1) / D) := by
    intro v hv
    simp only [List.mem_toFinset, List.mem_map] at hv
    obtain ⟨T, hT, rfl⟩ := hv
    obtain ⟨_, h2, h3⟩ := hmem T hT
    simp only [Finset.mem_range]
    have h4 : (n - T) / D ≤ (L - 1) / D := Nat.div_le_div_right (by omega)
    have h5 : (L - 1 + D) / D = (L - 1) / D + 1 := Nat.add_div_right _ (by omega)
    have h6 : L - 1 + D = L + D - 1 := by omega
    rw [h6] at h5
    omega
  have hcard := Finset.card_le_card hsub
  rw [List.toFinset_card_of_nodup hnodup2, List.length_map, Finset.card_range] at hcard
  exact hcard

/-- Claim C9, as the code has it. In a run of `OnUpdate` from tick 0 with divisor
`D ≥ 1`, delay `L ≥ 0` and an empty queue, at the end of every tick `t` (so also
of every tick `t ≥ L`) up to which the calls stay within `int` and read no empty
queue (`Defined`), the number of elements held in `wrench_queue_` is at most
`L / D` rounded up, that is `(L + D - 1) / D`. -/
theorem queue_bound {K G P : Type} [Add K] [Sub P] [Zero P] (lib : Library K G)
    (start : GazeboForceSensorPlugin K G) (worlds : Nat → World K P) (D L : Nat)
    (hr : Ready start D (L : Int)) (t : Nat)
    (hdef : Defined lib start worlds (L : Int) (t + 1)) :
    ∃ s, stateAfter lib start worlds (t + 1) = .ok s ∧
      s.wrench_queue_.length ≤ (L + D - 1) / D := by
  obtain ⟨pl, hpl⟩ := Option.ne_none_iff_exists'.mp hr.parent
  obtain ⟨s, hs, hinv⟩ :=
    stateAfter_spec lib start worlds pl D (L : Int) hr hpl (t + 1) (hdef.calls_in_range hr)
  refine ⟨s, hs, ?_⟩
  rw [hinv.queue, List.length_map]
  exact inflight_length_le D L t hr.pos

/-- Claim C9, as the code has it, at an instance: divisor 2 and delay 1, the end
of tick 2. -/
theorem queue_bound_witness :
    Ready (exampleLoaded (some "arm") none 1 2) 2 ((1 : Nat) : Int) ∧
    Defined exampleLibrary (exampleLoaded (some "arm") none 1 2) exampleWorld
      ((1 : Nat) : Int) (2 + 1) ∧
    ∃ s, stateAfter exampleLibrary (exampleLoaded (some "arm") none 1 2) exampleWorld (2 + 1)
        = .ok s ∧ s.wrench_queue_.length ≤ (1 + 2 - 1) / 2 := by
  have hr : Ready (exampleLoaded (some "arm") none 1 2) 2 ((1 : Nat) : Int) :=
    ⟨rfl, rfl, by decide, by decide, by decide, rfl, by decide, rfl, by decide, by decide,
      by decide⟩
  have hd : Defined exampleLibrary (exampleLoaded (some "arm") none 1 2) exampleWorld
      ((1 : Nat) : Int) (2 + 1) := by
    intro m hm
    interval_cases m <;> exact ⟨by unfold InRange; decide, _, rfl, rfl⟩
  exact ⟨hr, hd, queue_bound exampleLibrary _ exampleWorld 2 1 hr 2 hd⟩

/-- Claim C9 as stated fails: with divisor 2 and delay 1 the calls at ticks 0, 1
and 2 are defined (within `int`, no read of an empty queue), and the queue holds
one element at the end of tick 2, although `2 ≥ 1` and `1 / 2 = 0`. -/
theorem queue_bound_counterexample :
    Ready (exampleLoaded (some "arm") none 1 2) 2 1 ∧ 1 ≤ 2 ∧
    Defined exampleLibrary (exampleLoaded (some "arm") none 1 2) exampleWorld 1 (2 + 1) ∧
    ∃ s, stateAfter exampleLibrary (exampleLoaded (some "arm") none 1 2) exampleWorld (2 + 1)
        = .ok s ∧ s.wrench_queue_.length = 1 ∧ ¬ (s.wrench_queue_.length ≤ 1 / 2) := by
  refine ⟨⟨rfl, rfl, by decide, by decide, by decide, rfl, by decide, rfl, by decide,
    by decide, by decide⟩, by decide, ?_, _, rfl, rfl, by decide⟩
  intro m hm
  interval_cases m <;> exact ⟨by unfold InRange; decide, _, rfl, rfl⟩

/-- Claim C2 fails on the code: with divisor 2 and delay 0 the queue is empty
when the call at tick 1 reaches its release check (nothing is pushed at tick 1,
the sample of tick 0 left at tick 0), and the check reads the front all the
same. -/
theorem empty_queue_front_is_read :
    ∃ s s2 out, stateAfter exampleLibrary (exampleLoaded (some "arm") none 0 2) exampleWorld 1
        = .ok s ∧ s.wrench_queue_ = [] ∧
      OnUpdate exampleLibrary s (exampleWorld 1) = .ok (s2, out) ∧
      out.pushed = none ∧ out.front_on_empty = true :=
  ⟨_, _, _, rfl, rfl, rfl, rfl, rfl⟩

/-! ## What a release hands out -/

theorem sampleStep_setup {K G : Type} (lib : Library K G) (s s1 : GazeboForceSensorPlugin K G)
    (simTime : Time) (force torque : Vector3 K) (e : Option (Int × WrenchStamped K))
    (h : sampleStep lib s simTime force torque = .ok (s1, e)) : SameSetup s s1 := by
  unfold sampleStep at h
  split_ifs at h
  · cases h
    exact ⟨rfl, rfl, rfl, rfl, rfl, rfl, rfl, rfl, rfl, rfl, rfl, rfl, rfl⟩
  · cases h
    exact SameSetup.refl s

/-- A release of `releaseStep` is built from the front of the queue. -/
theorem releaseStep_some {K G P : Type} [Add K] (lib : Library K G)
    (s1 : GazeboForceSensorPlugin K G) (w : World K P) (poses : FramePoses P) (r : Release K P)
    (h : (releaseStep lib s1 w poses).2.2 = some r) :
    ∃ front, s1.wrench_queue_.head? = some front ∧ r.popped = front ∧
      r.true_forces = front.2 ∧
      r.transforms = sendTransforms s1 poses r.true_forces.header.stamp ∧
      r.noisy_published = true ∧
      r.noisy_forces.header = r.true_forces.header ∧
      r.noisy_forces.wrench.force =
        ⟨r.true_forces.wrench.force.x
            + (distortion lib s1.linear_force_n_ s1.linear_force_u_ s1.random_generator_).1.x,
          r.true_forces.wrench.force.y
            + (distortion lib s1.linear_force_n_ s1.linear_force_u_ s1.random_generator_).1.y,
          r.true_forces.wrench.force.z
            + (distortion lib s1.linear_force_n_ s1.linear_force_u_ s1.random_generator_).1.z⟩ ∧
      r.noisy_forces.wrench.torque =
        ⟨r.true_forces.wrench.torque.x + (distortion lib s1.torque_n_ s1.torque_u_
            (distortion lib s1.linear_force_n_ s1.linear_force_u_ s1.random_generator_).2).1.x,
          r.true_forces.wrench.torque.y + (distortion lib s1.torque_n_ s1.torque_u_
            (distortion lib s1.linear_force_n_ s1.linear_force_u_ s1.random_generator_).2).1.y,
          r.true_forces.wrench.torque.z + (distortion lib s1.torque_n_ s1.torque_u_
            (distortion lib s1.linear_force_n_ s1.linear_force_u_ s1.random_generator_).2).1.z⟩ := by
  unfold releaseStep at h
  cases hq : s1.wrench_queue_ with
  | nil => rw [hq] at h; cases h
  | cons front rest =>
    rw [hq] at h
    by_cases c : s1.gazebo_sequence_ = front.1
    · simp only [if_pos c] at h
      cases h
      exact ⟨front, rfl, rfl, rfl, rfl, by simp, rfl, rfl, rfl⟩
    · simp only [if_neg c] at h
      cases h

/-- A release of `OnUpdate` is a release of `releaseStep` on the object left by
the sampling step, with the poses of this call. -/
theorem OnUpdate_release {K G P : Type} [Add K] [Sub P] [Zero P] (lib : Library K G)
    (self s2 : GazeboForceSensorPlugin K G) (w : World K P) (out : TickOutput K P)
    (r : Release K P) (hok : OnUpdate lib self w = .ok (s2, out)) (hrel : out.release = some r) :
    ∃ s1 poses, applicationPoint self w = .ok poses ∧ SameSetup self s1 ∧
      (releaseStep lib s1 w poses).2.2 = some r := by
  simp only [OnUpdate, bind, Except.bind, pure, Except.pure] at hok
  cases hposes : applicationPoint self w with
  | error f => rw [hposes] at hok; cases hok
  | ok poses =>
    rw [hposes] at hok
    simp only at hok
    cases hft : forceParsing self w with
    | error f => rw [hft] at hok; cases hok
    | ok ft =>
      rw [hft] at hok
      simp only at hok
      cases hsample : sampleStep lib self w.GetSimTime ft.1 ft.2 with
      | error f => rw [hsample] at hok; cases hok
      | ok sampled =>
        rw [hsample] at hok
        simp only at hok
        cases hok
        exact ⟨sampled.1, poses, rfl, sampleStep_setup lib self sampled.1 _ _ _ sampled.2 hsample,
          hrel⟩

/-! ## Noise -/

theorem distortion_zero {K G : Type} [AddGroup K] (lib : Library K G)
    (hn : ∀ g, (lib.normal ⟨0, 0⟩ g).1 = 0) (hu : ∀ g, (lib.uniform ⟨-0, 0⟩ g).1 = 0) (g : G) :
    (distortion lib ⟨⟨0, 0⟩, ⟨0, 0⟩, ⟨0, 0⟩⟩ ⟨⟨-0, 0⟩, ⟨-0, 0⟩, ⟨-0, 0⟩⟩ g).1 = ⟨0, 0, 0⟩ := by
  simp only [distortion, hn, hu, add_zero]

/-- Claim C8. If the six normal distributions have standard deviation zero and
the six uniform distributions half-width zero, and a draw from such a
distribution returns zero, then for every release of `OnUpdate` the noisy
wrench message equals the true wrench message, header and all six components,
and it is published. -/
theorem zero_noise_identity {K G P : Type} [AddGroup K] [Sub P] [Zero P] (lib : Library K G)
    (self s2 : GazeboForceSensorPlugin K G) (w : World K P) (out : TickOutput K P)
    (r : Release K P)
    (hn : ∀ g, (lib.normal ⟨0, 0⟩ g).1 = 0) (hu : ∀ g, (lib.uniform ⟨-0, 0⟩ g).1 = 0)
    (hz : ZeroNoise self) (hok : OnUpdate lib self w = .ok (s2, out))
    (hrel : out.release = some r) :
    r.noisy_forces = r.true_forces ∧ r.noisy_published = true := by
  obtain ⟨s1, poses, _, hsetup, hrs⟩ := OnUpdate_release lib self s2 w out r hok hrel
  obtain ⟨front, _, _, _, _, hpub, hheader, hforce, htorque⟩ :=
    releaseStep_some lib s1 w poses r hrs
  obtain ⟨z1, z2, z3, z4⟩ := hz
  rw [hsetup.linear_force_n_, hsetup.linear_force_u_, z1, z3, distortion_zero lib hn hu]
    at hforce
  rw [hsetup.torque_n_, hsetup.torque_u_, z2, z4, distortion_zero lib hn hu] at htorque
  simp only [add_zero] at hforce htorque
  refine ⟨?_, hpub⟩
  have e1 : r.noisy_forces
      = ⟨r.noisy_forces.header, ⟨r.noisy_forces.wrench.force, r.noisy_forces.wrench.torque⟩⟩ :=
    rfl
  rw [e1, hheader, hforce, htorque]

/-- Claim C8, at an instance: no noise configured, divisor 1 and delay 0; the
call at tick 0 releases, and the noisy message is the true message. -/
theorem zero_noise_identity_witness :
    ZeroNoise (exampleLoaded (some "arm") none 0 1) ∧
    ∃ s2 out r, OnUpdate exampleLibrary (exampleLoaded (some "arm") none 0 1) (exampleWorld 0)
        = .ok (s2, out) ∧ out.release = some r ∧
      r.true_forces.wrench.force = ⟨1, 0, 0⟩ ∧
      r.noisy_forces = r.true_forces ∧ r.noisy_published = true :=
  ⟨⟨rfl, rfl, rfl, rfl⟩, _, _, _, rfl, rfl, rfl,
    zero_noise_identity exampleLibrary (exampleLoaded (some "arm") none 0 1) _
      (exampleWorld 0) _ _ (fun g => by simp [exampleLibrary])
      (fun g => by simp [exampleLibrary]) ⟨rfl, rfl, rfl, rfl⟩ rfl rfl⟩

/-! ## Frame transforms -/

theorem applicationPoint_parent_only {K G P : Type} [Sub P] [Zero P]
    (self : GazeboForceSensorPlugin K G) (w : World K P) (poses : FramePoses P)
    (hp : self.parent_frame_id_ ≠ kDefaultParentFrameId)
    (hnr : ¬ (self.reference_frame_id_ ≠ kDefaultReferenceFrameId ∧
      self.reference_frame_id_ ≠ self.parent_frame_id_))
    (h : applicationPoint self w = .ok poses) :
    ∃ l pl, self.link_ = some l ∧ self.parent_link_ = some pl ∧
      poses = ⟨(w.link l).GetWorldCoGPose - (w.link pl).GetWorldCoGPose,
        (w.link pl).GetWorldCoGPose, 0⟩ := by
  unfold applicationPoint at h
  cases hl : self.link_ with
  | none => rw [hl] at h; cases h
  | some l =>
    cases hpl : self.parent_link_ with
    | none =>
      rw [hl, hpl] at h
      simp only [deref, bind, Except.bind, pure, Except.pure, if_pos hp] at h
      cases h
    | some pl =>
      rw [hl, hpl] at h
      simp only [deref, bind, Except.bind, pure, Except.pure, if_pos hp, if_neg hnr] at h
      cases h
      exact ⟨l, pl, rfl, rfl, rfl⟩

theorem applicationPoint_both {K G P : Type} [Sub P] [Zero P]
    (self : GazeboForceSensorPlugin K G) (w : World K P) (poses : FramePoses P)
    (hp : self.parent_frame_id_ ≠ kDefaultParentFrameId)
    (hr : self.reference_frame_id_ ≠ kDefaultReferenceFrameId)
    (hrp : self.reference_frame_id_ ≠ self.parent_frame_id_)
    (h : applicationPoint self w = .ok poses) :
    ∃ l pl rl, self.link_ = some l ∧ self.parent_link_ = some pl ∧
      self.reference_link_ = some rl ∧
      poses = ⟨(w.link l).GetWorldCoGPose - (w.link pl).GetWorldCoGPose,
        (w.link pl).GetWorldCoGPose - (w.link rl).GetWorldCoGPose,
        (w.link rl).GetWorldCoGPose⟩ := by
  unfold applicationPoint at h
  have hboth : self.reference_frame_id_ ≠ kDefaultReferenceFrameId ∧
      self.reference_frame_id_ ≠ self.parent_frame_id_ := ⟨hr, hrp⟩
  cases hl : self.link_ with
  | none => rw [hl] at h; cases h
  | some l =>
    cases hpl : self.parent_link_ with
    | none =>
      rw [hl, hpl] at h
      simp only [deref, bind, Except.bind, pure, Except.pure, if_pos hp] at h
      cases h
    | some pl =>
      cases hrl : self.reference_link_ with
      | none =>
        rw [hl, hpl, hrl] at h
        simp only [deref, bind, Except.bind, pure, Except.pure, if_pos hp, if_pos hboth] at h
        cases h
      | some rl =>
        rw [hl, hpl, hrl] at h
        simp only [deref, bind, Except.bind, pure, Except.pure, if_pos hp, if_pos hboth] at h
        cases h
        exact ⟨l, pl, rl, rfl, rfl, rfl, rfl⟩

/-- Claim C3, as the code has it. With a parent frame configured and no distinct
reference frame, every release of `OnUpdate` sends first the sensor-to-parent
transform, whose pose is the sensor's world pose minus the parent's; when the
reference frame is the default it sends exactly one more, the parent's world
pose under the frame names reference (frame) and parent (child), and no
reference-to-world transform. -/
theorem parent_only_transforms {K G P : Type} [Add K] [Sub P] [Zero P] (lib : Library K G)
    (self s2 : GazeboForceSensorPlugin K G) (w : World K P) (out : TickOutput K P)
    (r : Release K P)
    (hp : self.parent_frame_id_ ≠ kDefaultParentFrameId)
    (hnr : self.reference_frame_id_ = kDefaultReferenceFrameId ∨
      self.reference_frame_id_ = self.parent_frame_id_)
    (hok : OnUpdate lib self w = .ok (s2, out)) (hrel : out.release = some r) :
    ∃ l pl, self.link_ = some l ∧ self.parent_link_ = some pl ∧
      r.transforms.head? = some
        ⟨(w.link l).GetWorldCoGPose - (w.link pl).GetWorldCoGPose,
          r.true_forces.header.stamp, self.parent_frame_id_, self.namespace_⟩ ∧
      (self.reference_frame_id_ = kDefaultReferenceFrameId →
        r.transforms =
          [⟨(w.link l).GetWorldCoGPose - (w.link pl).GetWorldCoGPose,
              r.true_forces.header.stamp, self.parent_frame_id_, self.namespace_⟩,
            ⟨(w.link pl).GetWorldCoGPose, r.true_forces.header.stamp,
              self.reference_frame_id_, self.parent_frame_id_⟩]) := by
  obtain ⟨s1, poses, hposes, hsetup, hrs⟩ := OnUpdate_release lib self s2 w out r hok hrel
  obtain ⟨front, _, _, _, htf, _⟩ := releaseStep_some lib s1 w poses r hrs
  have hnr2 : ¬ (self.reference_frame_id_ ≠ kDefaultReferenceFrameId ∧
      self.reference_frame_id_ ≠ self.parent_frame_id_) := by
    rintro ⟨a, b⟩
    rcases hnr with c | c
    · exact a c
    · exact b c
  obtain ⟨l, pl, hl, hpl, rfl⟩ := applicationPoint_parent_only self w poses hp hnr2 hposes
  refine ⟨l, pl, hl, hpl, ?_, ?_⟩
  · rw [htf]
    simp only [sendTransforms, hsetup.parent_frame_id_, hsetup.namespace_, List.cons_append,
      List.head?_cons]
  · intro hdef
    have hne : self.reference_frame_id_ ≠ self.parent_frame_id_ := by
      rw [hdef]
      exact fun c => hp (c.symm.trans rfl)
    rw [htf]
    simp only [sendTransforms, hsetup.parent_frame_id_, hsetup.namespace_,
      hsetup.reference_frame_id_]
    rw [if_pos ⟨hp, hne⟩, if_neg (fun c => c hdef)]
    rfl

/-- Claim C3, as the code has it, at an instance: parent "arm", reference at its
default, divisor 1 and delay 0; the call at tick 0 releases. -/
theorem parent_only_transforms_witness :
    (exampleLoaded (some "arm") none 0 1).parent_frame_id_ ≠ kDefaultParentFrameId ∧
    (exampleLoaded (some "arm") none 0 1).reference_frame_id_ = kDefaultReferenceFrameId ∧
    ∃ s2 out r, OnUpdate exampleLibrary (exampleLoaded (some "arm") none 0 1) (exampleWorld 0)
        = .ok (s2, out) ∧ out.release = some r ∧
      ∃ l pl, (exampleLoaded (some "arm") none 0 1).link_ = some l ∧
        (exampleLoaded (some "arm") none 0 1).parent_link_ = some pl ∧
        r.transforms.head? = some
          ⟨((exampleWorld 0).link l).GetWorldCoGPose - ((exampleWorld 0).link pl).GetWorldCoGPose,
            r.true_forces.header.stamp, (exampleLoaded (some "arm") none 0 1).parent_frame_id_,
            (exampleLoaded (some "arm") none 0 1).namespace_⟩ ∧
        ((exampleLoaded (some "arm") none 0 1).reference_frame_id_ = kDefaultReferenceFrameId →
          r.transforms =
            [⟨((exampleWorld 0).link l).GetWorldCoGPose
                - ((exampleWorld 0).link pl).GetWorldCoGPose,
                r.true_forces.header.stamp,
                (exampleLoaded (some "arm") none 0 1).parent_frame_id_,
                (exampleLoaded (some "arm") none 0 1).namespace_⟩,
              ⟨((exampleWorld 0).link pl).GetWorldCoGPose, r.true_forces.header.stamp,
                (exampleLoaded (some "arm") none 0 1).reference_frame_id_,
                (exampleLoaded (some "arm") none 0 1).parent_frame_id_⟩]) :=
  ⟨by decide, rfl, _, _, _, rfl, rfl,
    parent_only_transforms exampleLibrary (exampleLoaded (some "arm") none 0 1) _
      (exampleWorld 0) _ _ (by decide) (Or.inl rfl) rfl rfl⟩

/-- Claim C3 as stated fails in both of its cases. With parent "arm" and the
reference at its default a release sends two transforms, the second being the
parent's world pose under the frame names "world" and "arm". With parent and
reference both "arm" a release sends two transforms, the second being the zero
pose under the frame names "world" and "arm". -/
theorem parent_only_transforms_counterexample :
    ((exampleLoaded (some "arm") none 0 1).parent_frame_id_ ≠ kDefaultParentFrameId ∧
      (exampleLoaded (some "arm") none 0 1).reference_frame_id_ = kDefaultReferenceFrameId ∧
      ∃ s2 out r, OnUpdate exampleLibrary (exampleLoaded (some "arm") none 0 1) (exampleWorld 0)
          = .ok (s2, out) ∧ out.release = some r ∧
        r.transforms =
          [⟨examplePose 0 - examplePose 1, ⟨0, 0⟩, "arm", "drone"⟩,
            ⟨examplePose 1, ⟨0, 0⟩, "world", "arm"⟩] ∧
        r.transforms.length ≠ 1) ∧
    ((exampleLoaded (some "arm") (some "arm") 0 1).parent_frame_id_ ≠ kDefaultParentFrameId ∧
      (exampleLoaded (some "arm") (some "arm") 0 1).reference_frame_id_
        = (exampleLoaded (some "arm") (some "arm") 0 1).parent_frame_id_ ∧
      ∃ s2 out r, OnUpdate exampleLibrary (exampleLoaded (some "arm") (some "arm") 0 1)
          (exampleWorld 0) = .ok (s2, out) ∧ out.release = some r ∧
        r.transforms =
          [⟨examplePose 0 - examplePose 1, ⟨0, 0⟩, "arm", "drone"⟩,
            ⟨0, ⟨0, 0⟩, "world", "arm"⟩] ∧
        r.transforms.length ≠ 1) :=
  ⟨⟨by decide, rfl, _, _, _, rfl, rfl, rfl, by decide⟩,
    ⟨by decide, rfl, _, _, _, rfl, rfl, rfl, by decide⟩⟩

/-- Claim C5. With a parent frame and a distinct reference frame both
configured, every release of `OnUpdate` sends exactly three transforms: the
sensor in the parent (`C - P`), the parent in the reference (`P - R`) and the
reference in the world (`R`), where `A - B` is `compose (inverse B) A`; and for
orientations of norm one, composing the three gives back the world pose of the
sensor. -/
theorem frame_chain {K G : Type} [CommRing K] (lib : Library K G)
    (self s2 : GazeboForceSensorPlugin K G) (w : World K (Pose K))
    (out : TickOutput K (Pose K)) (r : Release K (Pose K)) (l pl rl : LinkPtr)
    (hp : self.parent_frame_id_ ≠ kDefaultParentFrameId)
    (hr : self.reference_frame_id_ ≠ kDefaultReferenceFrameId)
    (hrp : self.reference_frame_id_ ≠ self.parent_frame_id_)
    (hl : self.link_ = some l) (hpl : self.parent_link_ = some pl)
    (hrl : self.reference_link_ = some rl)
    (uP : (w.link pl).GetWorldCoGPose.Unit) (uR : (w.link rl).GetWorldCoGPose.Unit)
    (hok : OnUpdate lib self w = .ok (s2, out)) (hrel : out.release = some r) :
    r.transforms =
      [⟨(w.link l).GetWorldCoGPose - (w.link pl).GetWorldCoGPose,
          r.true_forces.header.stamp, self.parent_frame_id_, self.namespace_⟩,
        ⟨(w.link pl).GetWorldCoGPose - (w.link rl).GetWorldCoGPose,
          r.true_forces.header.stamp, self.reference_frame_id_, self.parent_frame_id_⟩,
        ⟨(w.link rl).GetWorldCoGPose, r.true_forces.header.stamp, "world",
          self.reference_frame_id_⟩] ∧
    Pose.compose (w.link rl).GetWorldCoGPose
      (Pose.compose ((w.link pl).GetWorldCoGPose - (w.link rl).GetWorldCoGPose)
        ((w.link l).GetWorldCoGPose - (w.link pl).GetWorldCoGPose))
      = (w.link l).GetWorldCoGPose := by
  obtain ⟨s1, poses, hposes, hsetup, hrs⟩ := OnUpdate_release lib self s2 w out r hok hrel
  obtain ⟨front, _, _, _, htf, _⟩ := releaseStep_some lib s1 w poses r hrs
  obtain ⟨l2, pl2, rl2, hl2, hpl2, hrl2, rfl⟩ :=
    applicationPoint_both self w poses hp hr hrp hposes
  rw [hl] at hl2
  rw [hpl] at hpl2
  rw [hrl] at hrl2
  cases hl2
  cases hpl2
  cases hrl2
  refine ⟨?_, Pose.chain _ _ _ uP uR⟩
  rw [htf]
  simp only [sendTransforms, hsetup.parent_frame_id_, hsetup.namespace_,
    hsetup.reference_frame_id_]
  rw [if_pos ⟨hp, hrp⟩, if_pos hr]
  rfl

/-- Claim C5, at an instance: parent "arm", reference "base", divisor 1 and
delay 0; the call at tick 0 releases. -/
theorem frame_chain_witness :
    ∃ s2 out r, OnUpdate exampleLibrary (exampleLoaded (some "arm") (some "base") 0 1)
        (exampleWorld 0) = .ok (s2, out) ∧ out.release = some r ∧
      r.transforms =
        [⟨examplePose 0 - examplePose 1, r.true_forces.header.stamp, "arm", "drone"⟩,
          ⟨examplePose 1 - examplePose 2, r.true_forces.header.stamp, "base", "arm"⟩,
          ⟨examplePose 2, r.true_forces.header.stamp, "world", "base"⟩] ∧
      Pose.compose (examplePose 2)
        (Pose.compose (examplePose 1 - examplePose 2) (examplePose 0 - examplePose 1))
        = examplePose 0 :=
  ⟨_, _, _, rfl, rfl,
    frame_chain exampleLibrary (exampleLoaded (some "arm") (some "base") 0 1) _ (exampleWorld 0)
      _ _ 0 1 2 (by decide) (by decide) (by decide) rfl rfl rfl rfl rfl rfl rfl⟩

/-! ## Load -/

/-- Claim C4 fails on the code. `Load` accepts a configuration without parent
frame and leaves `parent_link_` null, as the model has no link named "world";
the first call of `OnUpdate` then ends in the dereference of `parent_link_`
that reads the force. -/
theorem no_parent_null_dereference :
    ∃ p, Load exampleLibrary 0 exampleObject exampleModel (exampleSdf none none 0 1) = .ok p ∧
      p.parent_frame_id_ = kDefaultParentFrameId ∧ p.link_ = some 0 ∧ p.parent_link_ = none ∧
      p.updateConnection_ = true ∧
      OnUpdate exampleLibrary p (exampleWorld 0) = .error .nullParentLink :=
  ⟨_, rfl, rfl, rfl, rfl, rfl, rfl⟩

/-- With the divisor 0 and the link pointers not null, a call of `OnUpdate` ends
in the remainder by zero of line 167. -/
theorem OnUpdate_zero_divisor {K G P : Type} [Add K] [Sub P] [Zero P] (lib : Library K G)
    (s : GazeboForceSensorPlugin K G) (w : World K P) (hl : s.link_ ≠ none)
    (hp : s.parent_link_ ≠ none)
    (hr : s.reference_frame_id_ ≠ kDefaultReferenceFrameId →
      s.reference_frame_id_ ≠ s.parent_frame_id_ → s.reference_link_ ≠ none)
    (hd : s.measurement_divisor_ = 0) : OnUpdate lib s w = .error .divideByZero := by
  obtain ⟨poses, hposes⟩ := applicationPoint_ok s w hl hp hr
  obtain ⟨pl, hpl⟩ := Option.ne_none_iff_exists'.mp hp
  simp only [OnUpdate, hposes, forceParsing_ok s w pl hpl, sampleStep, hd, if_true, bind,
    Except.bind]

/-- Claim C7, as the code has it. `Load` does not look at the value of
`measurementDivisor`: whatever the configured value `d`, also `d ≤ 0`, when the
sensor link is found and the parent and reference links are found or at their
default, `Load` completes with `OnUpdate` connected to the update event and
`measurement_divisor_` equal to `d`; and when `d = 0` and the parent link is
not null, every call of `OnUpdate` on the loaded object reaches the remainder
of line 167 and ends there, in the remainder by zero. -/
theorem load_keeps_any_divisor {K G P : Type} [Zero K] [Neg K] [Add K] [Sub P] [Zero P]
    (lib : Library K G) (now : Nat)
    (self : GazeboForceSensorPlugin K G) (_model : Model) (_sdf : Sdf K) (d : Int)
    (hd : _sdf.measurementDivisor = some d)
    (hl : _model.GetLink (hasElementOrKeep _sdf.linkName self.link_name_) ≠ none)
    (hp : _model.GetLink (getSdfParam _sdf.parentFrameId self.parent_frame_id_) ≠ none ∨
      getSdfParam _sdf.parentFrameId self.parent_frame_id_ = kDefaultParentFrameId)
    (hr : _model.GetLink (getSdfParam _sdf.referenceFrameId self.reference_frame_id_) ≠ none ∨
      getSdfParam _sdf.referenceFrameId self.reference_frame_id_ = kDefaultReferenceFrameId) :
    ∃ p, Load lib now self _model _sdf = .ok p ∧ p.updateConnection_ = true ∧
      p.measurement_divisor_ = d ∧
      (d = 0 → p.parent_link_ ≠ none →
        ∀ w : World K P, OnUpdate lib p w = .error .divideByZero) := by
  have hl2 : ¬ _model.GetLink (hasElementOrKeep _sdf.linkName self.link_name_) = none := hl
  have hp2 : ¬ (_model.GetLink (getSdfParam _sdf.parentFrameId self.parent_frame_id_) = none ∧
      getSdfParam _sdf.parentFrameId self.parent_frame_id_ ≠ kDefaultParentFrameId) := by
    rintro ⟨a, b⟩
    rcases hp with c | c
    · exact c a
    · exact b c
  have hr2 : ¬ (_model.GetLink (getSdfParam _sdf.referenceFrameId self.reference_frame_id_)
      = none ∧
      getSdfParam _sdf.referenceFrameId self.reference_frame_id_ ≠ kDefaultReferenceFrameId) := by
    rintro ⟨a, b⟩
    rcases hr with c | c
    · exact c a
    · exact b c
  have hdiv : getSdfParam _sdf.measurementDivisor self.measurement_divisor_ = d := by
    simp only [hd, getSdfParam]
  unfold Load
  simp only [if_neg hl2, if_neg hp2, if_neg hr2]
  refine ⟨_, rfl, rfl, hdiv, ?_⟩
  intro hd0 hpar w
  refine OnUpdate_zero_divisor lib _ w hl2 hpar ?_ (hdiv.trans hd0)
  intro h1 _
  rcases hr with c | c
  · exact c
  · exact absurd c h1

/-- Claim C7, as the code has it, at two instances: the divisor -3 is kept, and
with the divisor 0 and the parent "arm" the first call of `OnUpdate` ends in
the remainder by zero. -/
theorem load_keeps_any_divisor_witness :
    (∃ p, Load exampleLibrary 0 exampleObject exampleModel (exampleSdf (some "arm") none 0 (-3))
        = .ok p ∧ p.updateConnection_ = true ∧ p.measurement_divisor_ = -3) ∧
    (∃ p, Load exampleLibrary 0 exampleObject exampleModel (exampleSdf (some "arm") none 0 0)
        = .ok p ∧ p.updateConnection_ = true ∧ p.measurement_divisor_ = 0 ∧
        p.parent_link_ ≠ none ∧
        OnUpdate exampleLibrary p (exampleWorld 0) = .error .divideByZero) := by
  obtain ⟨p, h1, h2, h3, _⟩ := load_keeps_any_divisor (P := Pose Int) exampleLibrary 0
    exampleObject exampleModel (exampleSdf (some "arm") none 0 (-3)) (-3) rfl (by decide)
    (Or.inl (by decide)) (Or.inr rfl)
  obtain ⟨q, k1, k2, k3, k4⟩ := load_keeps_any_divisor (P := Pose Int) exampleLibrary 0
    exampleObject exampleModel (exampleSdf (some "arm") none 0 0) 0 rfl (by decide)
    (Or.inl (by decide)) (Or.inr rfl)
  have hq : q.parent_link_ ≠ none := by
    have e : Load exampleLibrary 0 exampleObject exampleModel (exampleSdf (some "arm") none 0 0)
        = .ok (exampleLoaded (some "arm") none 0 0) := rfl
    rw [e] at k1
    cases k1
    decide
  exact ⟨⟨p, h1, h2, h3⟩, q, k1, k2, k3, hq, k4 rfl hq (exampleWorld 0)⟩

/-- Claim C7 as stated fails: `Load` accepts the divisor 0, connects `OnUpdate`,
and the first call of `OnUpdate` ends in the remainder by zero. -/
theorem load_rejects_divisor_counterexample :
    (0 : Int) ≤ 0 ∧
    ∃ p, Load exampleLibrary 0 exampleObject exampleModel (exampleSdf (some "arm") none 0 0)
        = .ok p ∧ p.updateConnection_ = true ∧ p.measurement_divisor_ = 0 ∧
      OnUpdate exampleLibrary p (exampleWorld 0) = .error .divideByZero :=
  ⟨by decide, _, rfl, rfl, rfl, rfl⟩

end gazebo
